import Mathlib

/-!
Verification of the capstone voting backend (FastAPI + SQLAlchemy app in
`app/main.py`, data model in `app/models.py`).

Shallow embedding conventions:
* UUIDs and string primary keys are abstract identifiers; both are modelled as
  `Nat`.
* Timestamps (`datetime`) are modelled as `Int` (seconds); `timedelta(hours=24)`
  is the constant `HOURS24 = 86400`.
* The database is an explicit record of tables (lists of rows); SQLAlchemy
  queries become list filters/maps over those tables, and `db.commit()` is
  returning the updated record.
* `random.choice(xs)` is modelled by an extra parameter `k : Nat`, the chosen
  element being `xs[k % xs.length]`; `random.shuffle` of the image list only
  permutes presentation order and is not modelled (the returned image multiset
  is what the claims are about).
* `HTTPException` becomes `Except ApiErr`; `statusOf` gives the HTTP status.
-/

/-- `models.SessionStatus`. -/
inductive SessionStatus where
  | active
  | completed
  | abandoned
deriving DecidableEq, Repr

/-- `models.ModelName`: the five participating image models. -/
inductive ModelName where
  | gpt5
  | gemini25
  | flux1_dev
  | flux1_krea
  | kolors
deriving DecidableEq, Repr

/-- `models.Winner`: a vote outcome — one of the five models or a tie. -/
inductive Winner where
  | gpt5
  | gemini25
  | flux1_dev
  | flux1_krea
  | kolors
  | tie
deriving DecidableEq, Repr

/-- The five non-tie members of `Winner`, in enum declaration order
(the order `for winner in models.Winner` iterates, skipping `tie`). -/
def nonTieWinners : List Winner :=
  [Winner.gpt5, Winner.gemini25, Winner.flux1_dev, Winner.flux1_krea, Winner.kolors]

/-- `models.Prompt` row: string primary key (modelled as `Nat`) and text. -/
structure PromptRec where
  id : Nat
  text : String
deriving DecidableEq, Repr

/-- `models.Image` row. -/
structure ImageRec where
  id : Nat
  promptId : Nat
  model : ModelName
  url : String
deriving DecidableEq, Repr

/-- `models.Session` row.  `chunkId` is nullable (legacy sessions). -/
structure SessionRec where
  id : Nat
  status : SessionStatus
  chunkId : Option Nat
  createdAt : Int
  lastActivity : Int
  completedAt : Option Int
deriving DecidableEq, Repr

/-- `models.Vote` row.  The surrogate UUID primary key is irrelevant to the
claims; a vote's identity is the unique `(user_session_id, prompt_id)` pair. -/
structure VoteRec where
  sessionId : Nat
  promptId : Nat
  winner : Winner
  reactionTimeMs : Option Int
  updatedAt : Option Int
deriving DecidableEq, Repr

/-- The database: one list per table.  A `chunks` row is just its id; a
`chunk_prompts` row is the unique `(chunk_id, prompt_id)` pair. -/
structure DBState where
  prompts : List PromptRec
  images : List ImageRec
  chunks : List Nat
  chunkPrompts : List (Nat × Nat)
  sessions : List SessionRec
  votes : List VoteRec
deriving DecidableEq, Repr

/-- Error taxonomy of the route handlers (`HTTPException`s raised in
`app/main.py`). -/
inductive ApiErr where
  /-- 400: `Invalid session_id UUID format` / `Invalid UUID format`. -/
  | invalidSessionId
  /-- 404: `Session not found`. -/
  | sessionNotFound
  /-- 400: `Invalid winner_model enum value`. -/
  | invalidWinner
  /-- 404: `Prompt not found`. -/
  | promptNotFound
  /-- 500: `Session has no chunk assigned`. -/
  | noChunkAssigned
  /-- 500: `Prompt ... has n images, expected 5`. -/
  | imageCardinality
  /-- 500: `No chunks available. Please run migrations to create chunks.` -/
  | noChunks
deriving DecidableEq, Repr

/-- HTTP status code of each error. -/
def statusOf : ApiErr → Nat
  | ApiErr.invalidSessionId => 400
  | ApiErr.sessionNotFound => 404
  | ApiErr.invalidWinner => 400
  | ApiErr.promptNotFound => 404
  | ApiErr.noChunkAssigned => 500
  | ApiErr.imageCardinality => 500
  | ApiErr.noChunks => 500

/-- `timedelta(hours=24)` in seconds. -/
def HOURS24 : Int := 86400

/-- `models.Winner(vote.winner_model)`: parse the submitted string into the
enum, `none` when the string is not one of the enum values
(`ValueError` → 400 in the code). -/
def parseWinner : String → Option Winner
  | "gpt5" => some Winner.gpt5
  | "gemini25" => some Winner.gemini25
  | "flux1_dev" => some Winner.flux1_dev
  | "flux1_krea" => some Winner.flux1_krea
  | "kolors" => some Winner.kolors
  | "tie" => some Winner.tie
  | _ => none

/-- `db.query(Session).filter(Session.id == sid).first()`. -/
def findSession (db : DBState) (sid : Nat) : Option SessionRec :=
  db.sessions.find? (fun s => s.id = sid)

/-- `db.query(Prompt).filter(Prompt.id == pid).first()`. -/
def findPrompt (db : DBState) (pid : Nat) : Option PromptRec :=
  db.prompts.find? (fun p => p.id = pid)

/-- `db.query(Vote).filter(Vote.user_session_id == sid, Vote.prompt_id == pid).first()`. -/
def findVote (db : DBState) (sid pid : Nat) : Option VoteRec :=
  db.votes.find? (fun v => v.sessionId = sid && v.promptId = pid)

/-- `db.query(Vote).filter(Vote.user_session_id == sid).count()`. -/
def voteCountOf (db : DBState) (sid : Nat) : Nat :=
  (db.votes.filter (fun v => v.sessionId = sid)).length

/-- `db.query(ChunkPrompt).filter(ChunkPrompt.chunk_id == c).count()` where `c`
is the session's (nullable) chunk id.  SQLAlchemy renders `== None` as
`IS NULL`, and `chunk_prompts.chunk_id` is non-null, so the count is `0` for a
legacy session. -/
def chunkPromptCount (db : DBState) (c : Option Nat) : Nat :=
  (db.chunkPrompts.filter (fun cp => (some cp.1 : Option Nat) = c)).length

/-- Prompt ids the session has voted on:
`db.query(Vote.prompt_id).filter(Vote.user_session_id == sid)`. -/
def votedIds (db : DBState) (sid : Nat) : List Nat :=
  (db.votes.filter (fun v => v.sessionId = sid)).map (fun v => v.promptId)

/-- Prompt ids of a chunk:
`db.query(ChunkPrompt.prompt_id).filter(ChunkPrompt.chunk_id == c)`. -/
def chunkPromptIds (db : DBState) (c : Nat) : List Nat :=
  (db.chunkPrompts.filter (fun cp => cp.1 = c)).map (fun cp => cp.2)

/-- Replace a session row in place (the ORM mutation of a loaded `Session`
object followed by `db.commit()`). -/
def setSessionRec (db : DBState) (sid : Nat) (f : SessionRec → SessionRec) : DBState :=
  { db with sessions := db.sessions.map (fun t => if t.id = sid then f t else t) }

/-- Body of `update_session_activity` restricted to the session record: the
abandonment check (against the *old* `last_activity`) followed by the
timestamp refresh. -/
def updateActivityRec (db : DBState) (s : SessionRec) (now : Int) : SessionRec :=
  let s1 :=
    if s.status = SessionStatus.active then
      if now - s.lastActivity > HOURS24 then
        if voteCountOf db s.id < chunkPromptCount db s.chunkId then
          { s with status := SessionStatus.abandoned }
        else s
      else s
    else s
  { s1 with lastActivity := now }

/-- `update_session_activity(session, db)` as a database transformer. -/
def updateSessionActivity (db : DBState) (sid : Nat) (now : Int) : DBState :=
  setSessionRec db sid (fun s => updateActivityRec db s now)

/-- Sessions completed on a given chunk:
count of sessions with `chunk_id == c` and `status == completed`
(the outer-join count in `assign_chunk_to_session`, which reports `0` for a
chunk with no sessions). -/
def completedCount (db : DBState) (c : Nat) : Nat :=
  (db.sessions.filter (fun s =>
    s.chunkId = some c && s.status = SessionStatus.completed)).length

/-- The `chunk_completion_query` rows: every chunk paired with its
completed-session count. -/
def chunkCompletionQuery (db : DBState) : List (Nat × Nat) :=
  db.chunks.map (fun c => (c, completedCount db c))

/-- `COMPLETION_GOAL` in `assign_chunk_to_session`. -/
def COMPLETION_GOAL : Nat := 10

/-- `assign_chunk_to_session(db)`; `k` models `random.choice` (the element at
index `k % length` of the candidate list). -/
def assign_chunk_to_session (db : DBState) (k : Nat) : Except ApiErr Nat :=
  let q := chunkCompletionQuery db
  if q.isEmpty then
    Except.error ApiErr.noChunks
  else
    let chunks_below_goal := q.filter (fun p => p.2 < COMPLETION_GOAL)
    if chunks_below_goal.isEmpty then
      -- all chunks have >= COMPLETION_GOAL completions, pick randomly
      let all_chunk_ids := q.map Prod.fst
      Except.ok (all_chunk_ids.getD (k % all_chunk_ids.length) 0)
    else
      -- minimum completed count among chunks below goal
      let min_completed := ((chunks_below_goal.map Prod.snd).min?).getD 0
      let chunks_with_min :=
        (chunks_below_goal.filter (fun p => p.2 = min_completed)).map Prod.fst
      Except.ok (chunks_with_min.getD (k % chunks_with_min.length) 0)

/-- The set of chunks the spec says `assign()` draws from, stated from the
claim's words: if some chunk's completed-session count is below the goal, the
below-goal chunks whose count is minimal among below-goal chunks; otherwise
all chunks. -/
def specEligibleChunks (db : DBState) : List Nat :=
  if db.chunks.any (fun c => completedCount db c < COMPLETION_GOAL) then
    db.chunks.filter (fun c =>
      completedCount db c < COMPLETION_GOAL &&
        db.chunks.all (fun c2 =>
          !(completedCount db c2 < COMPLETION_GOAL) ||
            completedCount db c ≤ completedCount db c2))
  else
    db.chunks

/-- A fresh session id (`uuid.uuid4()` never collides with an existing id;
modelled as one more than the maximum id in use). -/
def freshSessionId (db : DBState) : Nat :=
  (db.sessions.map (fun s => s.id)).foldr max 0 + 1

/-- `POST /session/start`: assign a chunk, create an active session bound to
it.  Returns `(session id, chunk id)` on success. -/
def start_session (db : DBState) (now : Int) (k : Nat) :
    Except ApiErr (Nat × Nat) × DBState :=
  match assign_chunk_to_session db k with
  | Except.error e => (Except.error e, db)
  | Except.ok cid =>
      let sid := freshSessionId db
      let s : SessionRec :=
        { id := sid, status := SessionStatus.active, chunkId := some cid,
          createdAt := now, lastActivity := now, completedAt := none }
      (Except.ok (sid, cid), { db with sessions := db.sessions ++ [s] })

/-- Response of `GET /prompts/next` (`schemas.PromptOut`). -/
structure PromptOut where
  done : Bool
  promptId : Option Nat
  promptText : Option String
  images : Option (List ImageRec)
  total : Nat
  index : Nat
  chunkId : Nat
deriving DecidableEq, Repr

/-- The unvoted prompts of session `sid` inside chunk `c`:
`db.query(Prompt).filter(Prompt.id.in_(chunk_prompt_ids)).filter(~Prompt.id.in_(voted_prompt_ids))`. -/
def unvotedPrompts (db : DBState) (c : Nat) (sid : Nat) : List PromptRec :=
  db.prompts.filter (fun p =>
    (chunkPromptIds db c).contains p.id && !((votedIds db sid).contains p.id))

/-- The `complete` transition of the Session Lifecycle Manager: stamp the
session completed with `completed_at = now` (lines 222-224 of `main.py`). -/
def completeRec (now : Int) (t : SessionRec) : SessionRec :=
  { t with status := SessionStatus.completed, completedAt := some now }

/-- `GET /prompts/next`.  `sidOpt` is the result of parsing the raw
`session_id` string as a UUID (`none` = malformed, 400); `k` models the two
`random.choice`/`random.shuffle` draws (only the prompt choice matters to the
result's content). -/
def next_prompt (db : DBState) (sidOpt : Option Nat) (now : Int) (k : Nat) :
    Except ApiErr PromptOut × DBState :=
  match sidOpt with
  | none => (Except.error ApiErr.invalidSessionId, db)
  | some sid =>
    match findSession db sid with
    | none => (Except.error ApiErr.sessionNotFound, db)
    | some s0 =>
      -- update activity and check for abandoned status (committed even if a
      -- later validation fails)
      let db1 := updateSessionActivity db sid now
      let s := updateActivityRec db s0 now
      match s.chunkId with
      | none => (Except.error ApiErr.noChunkAssigned, db1)
      | some c =>
        let unvoted := unvotedPrompts db1 c sid
        let total := chunkPromptCount db1 (some c)
        let prompts_completed := total - unvoted.length
        if unvoted.isEmpty then
          -- mark session as completed when all prompts are voted
          let db2 :=
            if s.status = SessionStatus.active then
              setSessionRec db1 sid (completeRec now)
            else db1
          (Except.ok
            { done := true, promptId := none, promptText := none, images := none,
              total := total, index := prompts_completed, chunkId := c }, db2)
        else
          let prompt := unvoted.getD (k % unvoted.length) { id := 0, text := "" }
          let images := db1.images.filter (fun im => im.promptId = prompt.id)
          if images.length ≠ 5 then
            (Except.error ApiErr.imageCardinality, db1)
          else
            (Except.ok
              { done := false, promptId := some prompt.id,
                promptText := some prompt.text, images := some images,
                total := total, index := prompts_completed + 1, chunkId := c }, db1)

/-- `schemas.VoteCreate` after request parsing: `sessionId` is the result of
`uuid.UUID(vote.session_id)` (`none` = malformed string, 400); the winner is
still the raw string, parsed by the handler. -/
structure VoteCreate where
  sessionId : Option Nat
  promptId : Nat
  winnerModel : String
  reactionTimeMs : Option Int
deriving DecidableEq, Repr

/-- Response of `POST /votes`: `{"ok": True, "updated": updated}`. -/
structure VoteAck where
  ok : Bool
  updated : Bool
deriving DecidableEq, Repr

/-- `POST /votes` (`cast_vote`). -/
def cast_vote (db : DBState) (vote : VoteCreate) (now : Int) :
    Except ApiErr VoteAck × DBState :=
  match vote.sessionId with
  | none => (Except.error ApiErr.invalidSessionId, db)
  | some sid =>
    match findSession db sid with
    | none => (Except.error ApiErr.sessionNotFound, db)
    | some _ =>
      let db1 := updateSessionActivity db sid now
      match parseWinner vote.winnerModel with
      | none => (Except.error ApiErr.invalidWinner, db1)
      | some winner_enum =>
        match findPrompt db1 vote.promptId with
        | none => (Except.error ApiErr.promptNotFound, db1)
        | some _ =>
          match findVote db1 sid vote.promptId with
          | some _ =>
            -- update existing vote
            let db2 := { db1 with votes := db1.votes.map (fun v =>
              if v.sessionId = sid && v.promptId = vote.promptId then
                { v with winner := winner_enum,
                         reactionTimeMs := vote.reactionTimeMs,
                         updatedAt := some now }
              else v) }
            (Except.ok { ok := true, updated := true }, db2)
          | none =>
            -- create new vote
            let db2 := { db1 with votes := db1.votes ++
              [{ sessionId := sid, promptId := vote.promptId,
                 winner := winner_enum, reactionTimeMs := vote.reactionTimeMs,
                 updatedAt := none }] }
            (Except.ok { ok := true, updated := false }, db2)

/-- Response of `GET /session/{id}/status`. -/
structure SessionStatusResponse where
  sessionId : Nat
  status : SessionStatus
  createdAt : Int
  lastActivity : Int
  completedAt : Option Int
  totalVotes : Nat
  totalPrompts : Nat
  chunkId : Option Nat
deriving DecidableEq, Repr

/-- `GET /session/{session_id}/status`. -/
def get_session_status (db : DBState) (sidOpt : Option Nat) (now : Int) :
    Except ApiErr SessionStatusResponse × DBState :=
  match sidOpt with
  | none => (Except.error ApiErr.invalidSessionId, db)
  | some sid =>
    match findSession db sid with
    | none => (Except.error ApiErr.sessionNotFound, db)
    | some s0 =>
      let db1 := updateSessionActivity db sid now
      let s := updateActivityRec db s0 now
      (Except.ok
        { sessionId := s.id, status := s.status, createdAt := s.createdAt,
          lastActivity := s.lastActivity, completedAt := s.completedAt,
          totalVotes := voteCountOf db1 sid,
          totalPrompts := chunkPromptCount db1 s.chunkId,
          chunkId := s.chunkId }, db1)

/-- An element of `schemas.ModelResult` (win percentage as an exact rational;
the code computes it in floating point). -/
structure ModelResult where
  modelId : Winner
  wins : Nat
  winPercentage : ℚ
deriving DecidableEq, Repr

/-- Response of `GET /results`. -/
structure ResultsResponse where
  totalVotes : Nat
  totalDecisiveVotes : Nat
  tieVotes : Nat
  models : List ModelResult
deriving DecidableEq, Repr

/-- Votes for a given winner value:
the group-by count in `get_results` (keyed by the enum). -/
def winCount (db : DBState) (w : Winner) : Nat :=
  (db.votes.filter (fun v => v.winner = w)).length

/-- The `win_counts` dict of `get_results`: group-by over votes with
`winner_model != tie`; models with no decisive vote have no key. -/
def winCountsDict (db : DBState) : List (Winner × Nat) :=
  nonTieWinners.filterMap (fun w =>
    if winCount db w = 0 then none else some (w, winCount db w))

/-- `GET /results` (`get_results`). -/
def get_results (db : DBState) : ResultsResponse :=
  let total_votes := db.votes.length
  let tie_votes := (db.votes.filter (fun v => v.winner = Winner.tie)).length
  let total_decisive_votes := ((winCountsDict db).map Prod.snd).sum
  let model_results := nonTieWinners.map (fun w =>
    let wins := ((winCountsDict db).lookup w).getD 0
    let win_percentage : ℚ :=
      if total_decisive_votes > 0 then
        (wins : ℚ) / (total_decisive_votes : ℚ) * 100
      else 0
    { modelId := w, wins := wins, winPercentage := win_percentage })
  { totalVotes := total_votes, totalDecisiveVotes := total_decisive_votes,
    tieVotes := tie_votes, models := model_results }

/-- One client-visible operation on the store (the route handlers that mutate
state). -/
inductive Op where
  | start (now : Int) (k : Nat)
  | next (sidOpt : Option Nat) (now : Int) (k : Nat)
  | vote (v : VoteCreate) (now : Int)
  | status (sidOpt : Option Nat) (now : Int)
deriving DecidableEq, Repr

/-- The state reached after one operation (responses discarded). -/
def runOp (db : DBState) : Op → DBState
  | Op.start now k => (start_session db now k).2
  | Op.next sidOpt now k => (next_prompt db sidOpt now k).2
  | Op.vote v now => (cast_vote db v now).2
  | Op.status sidOpt now => (get_session_status db sidOpt now).2

/-- The state reached after a sequence of operations. -/
def runOps (db : DBState) (ops : List Op) : DBState :=
  ops.foldl runOp db

/-- Well-formedness of a database state: the uniqueness constraints and
foreign keys of `app/models.py` (primary keys unique; `uq_chunk_prompts_chunk_prompt`;
`uq_votes_session_prompt`; `votes.prompt_id → prompts.id`), plus the lifecycle
fact that an active session has no completion stamp. -/
def WFdb (db : DBState) : Prop :=
  (db.sessions.map (fun s => s.id)).Nodup ∧
  (db.prompts.map (fun p => p.id)).Nodup ∧
  db.chunkPrompts.Nodup ∧
  (db.votes.map (fun v => (v.sessionId, v.promptId))).Nodup ∧
  (∀ v ∈ db.votes, v.promptId ∈ db.prompts.map (fun p => p.id)) ∧
  (∀ s ∈ db.sessions, s.status = SessionStatus.active → s.completedAt = none) ∧
  (∀ cp ∈ db.chunkPrompts, cp.2 ∈ db.prompts.map (fun p => p.id))

instance (db : DBState) : Decidable (WFdb db) := by
  unfold WFdb; infer_instance

/-- Number of distinct prompts the session has voted on. -/
def distinctVotedCount (db : DBState) (sid : Nat) : Nat :=
  (votedIds db sid).dedup.length

/-! ### Helper lemmas -/

lemma getD_mod_mem {l : List Nat} (hl : l ≠ []) (k : Nat) :
    l.getD (k % l.length) 0 ∈ l := by
  have hlen : k % l.length < l.length := Nat.mod_lt _ (List.length_pos.mpr hl)
  rw [List.getD_eq_getElem _ _ hlen]
  exact List.getElem_mem hlen

lemma exists_getD_mod_eq {l : List Nat} {c : Nat} (h : c ∈ l) :
    ∃ k : Nat, l.getD (k % l.length) 0 = c := by
  refine ⟨l.indexOf c, ?_⟩
  have hlt : l.indexOf c < l.length := List.indexOf_lt_length.mpr h
  rw [Nat.mod_eq_of_lt hlt, List.getD_eq_getElem _ _ hlt]
  exact List.getElem_indexOf hlt

lemma exists_getD_mod_iff_mem {l : List Nat} (hl : l ≠ []) (c : Nat) :
    (∃ k : Nat, l.getD (k % l.length) 0 = c) ↔ c ∈ l :=
  ⟨fun ⟨k, hk⟩ => hk ▸ getD_mod_mem hl k, fun h => exists_getD_mod_eq h⟩

lemma mem_chunkCompletionQuery {db : DBState} {c n : Nat} :
    (c, n) ∈ chunkCompletionQuery db ↔ c ∈ db.chunks ∧ n = completedCount db c := by
  constructor
  · intro h
    rcases List.mem_map.mp h with ⟨a, ha, heq⟩
    injection heq with h1 h2
    subst h1; subst h2; exact ⟨ha, rfl⟩
  · rintro ⟨hc, rfl⟩
    exact List.mem_map.mpr ⟨c, hc, rfl⟩

lemma min_getD_spec {l : List Nat} (h : l ≠ []) :
    (l.min?.getD 0) ∈ l ∧ ∀ a ∈ l, l.min?.getD 0 ≤ a := by
  have htop : l.minimum ≠ ⊤ := List.minimum_ne_top_of_ne_nil h
  obtain ⟨m, hm⟩ : ∃ m : Nat, l.minimum = (m : WithTop Nat) := by
    cases hmin : l.minimum with
    | top => exact absurd hmin htop
    | coe m => exact ⟨m, rfl⟩
  have hspec := List.minimum_eq_coe_iff.mp hm
  have hgetD : l.min?.getD 0 = m := by
    rw [List.getD_min?_eq_untop'_minimum, hm]; rfl
  rw [hgetD]
  exact hspec

/-! ### C1: chunk assignment balancer -/

/-- **C1.**  `assign_chunk_to_session` fails with a configuration error when no
chunks exist; otherwise it always returns a chunk, and the set of chunks it can
return (over all random draws `k`) is exactly the spec's eligible set: the
below-goal chunks of minimal completed-session count when one exists, and all
chunks when every chunk has reached the goal `G = 10`. -/
theorem assign_chunk_balancer_correct (db : DBState) :
    (db.chunks = [] →
      ∀ k, assign_chunk_to_session db k = Except.error ApiErr.noChunks) ∧
    (db.chunks ≠ [] →
      (∀ k, ∃ c, assign_chunk_to_session db k = Except.ok c) ∧
      (∀ c, (∃ k, assign_chunk_to_session db k = Except.ok c) ↔
        c ∈ specEligibleChunks db)) ∧
    statusOf ApiErr.noChunks = 500 := by
  refine ⟨?_, ?_, rfl⟩
  · intro hempty k
    have hq : (chunkCompletionQuery db).isEmpty = true := by
      simp [chunkCompletionQuery, hempty]
    simp [assign_chunk_to_session, hq]
  · intro hne
    have hq : ¬ (chunkCompletionQuery db).isEmpty = true := by
      simp [chunkCompletionQuery, List.isEmpty_iff, hne]
    by_cases hbg : ∃ c ∈ db.chunks, completedCount db c < COMPLETION_GOAL
    · -- some chunk is below goal: the min-branch runs
      -- the filtered query list is nonempty
      have hbelow_ne :
          (chunkCompletionQuery db).filter (fun p => p.2 < COMPLETION_GOAL) ≠ [] := by
        rcases hbg with ⟨c, hc, hlt⟩
        intro hnil
        have : (c, completedCount db c) ∈
            (chunkCompletionQuery db).filter (fun p => p.2 < COMPLETION_GOAL) := by
          rw [List.mem_filter]
          exact ⟨mem_chunkCompletionQuery.mpr ⟨hc, rfl⟩, by simpa using hlt⟩
        rw [hnil] at this
        exact absurd this (List.not_mem_nil _)
      have hbelow : ¬ ((chunkCompletionQuery db).filter
          (fun p => p.2 < COMPLETION_GOAL)).isEmpty = true := by
        simpa [List.isEmpty_iff] using hbelow_ne
      -- the minimum over below-goal counts
      set below := (chunkCompletionQuery db).filter (fun p => p.2 < COMPLETION_GOAL)
        with hbelow_def
      have hcounts_ne : below.map Prod.snd ≠ [] := by
        simpa using hbelow_ne
      obtain ⟨hmin_mem, hmin_le⟩ := min_getD_spec hcounts_ne
      set m := ((below.map Prod.snd).min?).getD 0 with hm_def
      set cand := (below.filter (fun p => p.2 = m)).map Prod.fst with hcand_def
      -- membership in below
      have hmem_below : ∀ c n : Nat, (c, n) ∈ below ↔
          (c ∈ db.chunks ∧ n = completedCount db c ∧ n < COMPLETION_GOAL) := by
        intro c n
        rw [hbelow_def, List.mem_filter]
        constructor
        · rintro ⟨hq', hlt⟩
          rcases mem_chunkCompletionQuery.mp hq' with ⟨hc, rfl⟩
          exact ⟨hc, rfl, by simpa using hlt⟩
        · rintro ⟨hc, rfl, hlt⟩
          exact ⟨mem_chunkCompletionQuery.mpr ⟨hc, rfl⟩, by simpa using hlt⟩
      -- membership in the candidate list
      have hmem_cand : ∀ c : Nat, c ∈ cand ↔
          (c ∈ db.chunks ∧ completedCount db c < COMPLETION_GOAL ∧
            completedCount db c = m) := by
        intro c
        rw [hcand_def]
        constructor
        · intro h
          rcases List.mem_map.mp h with ⟨⟨c', n⟩, hmem, rfl⟩
          rcases List.mem_filter.mp hmem with ⟨hb, heq⟩
          rcases (hmem_below c' n).mp hb with ⟨hc, rfl, hlt⟩
          exact ⟨hc, hlt, by simpa using heq⟩
        · rintro ⟨hc, hlt, heqm⟩
          refine List.mem_map.mpr ⟨(c, completedCount db c), ?_, rfl⟩
          rw [List.mem_filter]
          exact ⟨(hmem_below c _).mpr ⟨hc, rfl, hlt⟩, by simpa using heqm⟩
      -- candidate list is nonempty (the minimum is attained)
      have hcand_ne : cand ≠ [] := by
        rcases List.mem_map.mp hmin_mem with ⟨⟨c0, n0⟩, hb0, hn0⟩
        rcases (hmem_below c0 n0).mp hb0 with ⟨hc0, rfl, hlt0⟩
        intro hnil
        have : c0 ∈ cand := (hmem_cand c0).mpr ⟨hc0, hlt0, by simpa using hn0⟩
        rw [hnil] at this
        exact absurd this (List.not_mem_nil _)
      -- the spec set in the below-goal case
      have hany : db.chunks.any
          (fun c => decide (completedCount db c < COMPLETION_GOAL)) = true := by
        rcases hbg with ⟨c, hc, hlt⟩
        exact List.any_eq_true.mpr ⟨c, hc, by simpa using hlt⟩
      have hspec_mem : ∀ c : Nat, c ∈ specEligibleChunks db ↔
          (c ∈ db.chunks ∧ completedCount db c < COMPLETION_GOAL ∧
            ∀ c2 ∈ db.chunks, completedCount db c2 < COMPLETION_GOAL →
              completedCount db c ≤ completedCount db c2) := by
        intro c
        rw [specEligibleChunks, if_pos hany, List.mem_filter]
        simp only [Bool.and_eq_true, decide_eq_true_eq, List.all_eq_true,
          Bool.or_eq_true, Bool.not_eq_true']
        constructor
        · rintro ⟨hc, hlt, hall⟩
          refine ⟨hc, hlt, fun c2 hc2 hlt2 => ?_⟩
          rcases hall c2 hc2 with h | h
          · exact absurd hlt2 (by simpa using h)
          · simpa using h
        · rintro ⟨hc, hlt, hall⟩
          refine ⟨hc, hlt, fun c2 hc2 => ?_⟩
          by_cases h2 : completedCount db c2 < COMPLETION_GOAL
          · exact Or.inr (by simpa using hall c2 hc2 h2)
          · exact Or.inl (by simpa using h2)
      -- candidate set = spec set
      have hsets : ∀ c : Nat, c ∈ cand ↔ c ∈ specEligibleChunks db := by
        intro c
        rw [hmem_cand, hspec_mem]
        constructor
        · rintro ⟨hc, hlt, heqm⟩
          refine ⟨hc, hlt, fun c2 hc2 hlt2 => ?_⟩
          rw [heqm]
          exact hmin_le _ (List.mem_map.mpr
            ⟨(c2, completedCount db c2), (hmem_below c2 _).mpr ⟨hc2, rfl, hlt2⟩, rfl⟩)
        · rintro ⟨hc, hlt, hall⟩
          refine ⟨hc, hlt, le_antisymm ?_ ?_⟩
          · -- count c ≤ m since m is attained at a below-goal chunk
            rcases List.mem_map.mp hmin_mem with ⟨⟨c0, n0⟩, hb0, hn0⟩
            rcases (hmem_below c0 n0).mp hb0 with ⟨hc0, rfl, hlt0⟩
            rw [← hn0]
            exact hall c0 hc0 hlt0
          · -- m ≤ count c since c itself is below goal
            exact hmin_le _ (List.mem_map.mpr
              ⟨(c, completedCount db c), (hmem_below c _).mpr ⟨hc, rfl, hlt⟩, rfl⟩)
      have hassign : ∀ k, assign_chunk_to_session db k =
          Except.ok (cand.getD (k % cand.length) 0) := by
        intro k
        simp only [assign_chunk_to_session, if_neg hq, if_neg hbelow]
      constructor
      · intro k
        exact ⟨_, hassign k⟩
      · intro c
        rw [← hsets c, ← exists_getD_mod_iff_mem hcand_ne c]
        constructor
        · rintro ⟨k, hk⟩
          rw [hassign k] at hk
          exact ⟨k, by injection hk⟩
        · rintro ⟨k, hk⟩
          exact ⟨k, by rw [hassign k, hk]⟩
    · -- all chunks at or above goal: the fallback branch runs
      have hbelow_nil : (chunkCompletionQuery db).filter
          (fun p => p.2 < COMPLETION_GOAL) = [] := by
        rw [List.filter_eq_nil_iff]
        rintro ⟨c, n⟩ hmem
        rcases mem_chunkCompletionQuery.mp hmem with ⟨hc, rfl⟩
        simp only [decide_eq_true_eq]
        exact fun hlt => hbg ⟨c, hc, hlt⟩
      have hbelow : ((chunkCompletionQuery db).filter
          (fun p => p.2 < COMPLETION_GOAL)).isEmpty = true := by
        simp [hbelow_nil]
      have hids : (chunkCompletionQuery db).map Prod.fst = db.chunks := by
        simp [chunkCompletionQuery, List.map_map, Function.comp_def]
      have hany : ¬ db.chunks.any
          (fun c => decide (completedCount db c < COMPLETION_GOAL)) = true := by
        intro h
        rcases List.any_eq_true.mp h with ⟨c, hc, hlt⟩
        exact hbg ⟨c, hc, by simpa using hlt⟩
      have hspec : specEligibleChunks db = db.chunks := by
        rw [specEligibleChunks, if_neg hany]
      have hassign : ∀ k, assign_chunk_to_session db k =
          Except.ok (db.chunks.getD (k % db.chunks.length) 0) := by
        intro k
        simp only [assign_chunk_to_session, if_neg hq, if_pos hbelow, hids]
      constructor
      · intro k
        exact ⟨_, hassign k⟩
      · intro c
        rw [hspec, ← exists_getD_mod_iff_mem hne c]
        constructor
        · rintro ⟨k, hk⟩
          rw [hassign k] at hk
          exact ⟨k, by injection hk⟩
        · rintro ⟨k, hk⟩
          exact ⟨k, by rw [hassign k, hk]⟩

/-- A concrete state for the C1 witness: three chunks, one completed session on
chunk 1, none on chunks 2 and 3. -/
def dbC1 : DBState :=
  { prompts := [], images := [], chunks := [1, 2, 3], chunkPrompts := [],
    sessions := [{ id := 1, status := SessionStatus.completed, chunkId := some 1,
                   createdAt := 0, lastActivity := 0, completedAt := some 0 }],
    votes := [] }

/-- Witness for C1: on `dbC1` the balancer can return chunk 2 (a below-goal
chunk of minimal completed count). -/
theorem assign_chunk_balancer_correct_witness :
    dbC1.chunks ≠ [] ∧ (∃ k, assign_chunk_to_session dbC1 k = Except.ok 2) :=
  ⟨by decide,
    (((assign_chunk_balancer_correct dbC1).2.1 (by decide)).2 2).mpr (by decide)⟩

/-! ### C8: global results aggregation -/

lemma lookup_filterMap_not_mem {α : Type} [DecidableEq α] (f : α → Nat) (a : α) :
    ∀ l : List α, a ∉ l →
      (l.filterMap (fun x => if f x = 0 then none else some (x, f x))).lookup a = none := by
  intro l
  induction l with
  | nil => intro; rfl
  | cons b t ih =>
    intro hmem
    have hab : a ≠ b := fun h => hmem (h ▸ List.mem_cons_self b t)
    have hat : a ∉ t := fun h => hmem (List.mem_cons_of_mem b h)
    simp only [List.filterMap_cons]
    by_cases hb : f b = 0
    · rw [if_pos hb]; exact ih hat
    · rw [if_neg hb]
      simp only [List.lookup, beq_eq_false_iff_ne.mpr hab]
      exact ih hat

lemma lookup_filterMap_mem {α : Type} [DecidableEq α] (f : α → Nat) (a : α) :
    ∀ l : List α, l.Nodup → a ∈ l →
      ((l.filterMap (fun x => if f x = 0 then none else some (x, f x))).lookup a).getD 0
        = f a := by
  intro l
  induction l with
  | nil => intro _ h; exact absurd h (List.not_mem_nil a)
  | cons b t ih =>
    intro hnd hmem
    have hbt : b ∉ t := (List.nodup_cons.mp hnd).1
    have hndt : t.Nodup := (List.nodup_cons.mp hnd).2
    simp only [List.filterMap_cons]
    rcases List.mem_cons.mp hmem with rfl | hat
    · by_cases hb : f a = 0
      · rw [if_pos hb, lookup_filterMap_not_mem f a t hbt]
        simpa using hb.symm
      · rw [if_neg hb]
        simp [List.lookup]
    · have hab : a ≠ b := fun h => hbt (h ▸ hat)
      by_cases hb : f b = 0
      · rw [if_pos hb]; exact ih hndt hat
      · rw [if_neg hb]
        simp only [List.lookup, beq_eq_false_iff_ne.mpr hab]
        exact ih hndt hat

lemma sum_filterMap_counts {α : Type} (f : α → Nat) (l : List α) :
    ((l.filterMap (fun x => if f x = 0 then none else some (x, f x))).map Prod.snd).sum
      = (l.map f).sum := by
  induction l with
  | nil => rfl
  | cons b t ih =>
    simp only [List.filterMap_cons, List.map_cons, List.sum_cons]
    by_cases hb : f b = 0
    · rw [if_pos hb, hb, ih, Nat.zero_add]
    · rw [if_neg hb]
      simp only [List.map_cons, List.sum_cons]
      rw [ih]

lemma sum_winCounts (votes : List VoteRec) :
    (nonTieWinners.map (fun w => (votes.filter (fun v => v.winner = w)).length)).sum
      = (votes.filter (fun v => v.winner ≠ Winner.tie)).length := by
  induction votes with
  | nil => decide
  | cons v t ih =>
    cases hw : v.winner <;>
      simp_all [nonTieWinners, List.filter_cons, hw] <;> omega

/-- **C8.**  Global results aggregation (`get_results`): the per-model win
counts sum to `total_decisive_votes`; decisive plus tie votes equals
`total_votes`; and each model's win percentage is `0` when there are no
decisive votes and `wins / total_decisive_votes * 100` otherwise. -/
theorem get_results_aggregation_correct (db : DBState) :
    (((get_results db).models.map (fun m => m.wins)).sum
        = (get_results db).totalDecisiveVotes) ∧
    ((get_results db).totalDecisiveVotes + (get_results db).tieVotes
        = (get_results db).totalVotes) ∧
    (∀ m ∈ (get_results db).models,
      m.winPercentage =
        if (get_results db).totalDecisiveVotes = 0 then 0
        else (m.wins : ℚ) / ((get_results db).totalDecisiveVotes : ℚ) * 100) := by
  have hnd : nonTieWinners.Nodup := by decide
  have hlookup : ∀ w ∈ nonTieWinners,
      (((winCountsDict db).lookup w).getD 0) = winCount db w := by
    intro w hw
    exact lookup_filterMap_mem (winCount db) w nonTieWinners hnd hw
  have hdict_sum : ((winCountsDict db).map Prod.snd).sum
      = (nonTieWinners.map (winCount db)).sum :=
    sum_filterMap_counts (winCount db) nonTieWinners
  refine ⟨?_, ?_, ?_⟩
  · -- sum of wins = total_decisive_votes
    simp only [get_results, List.map_map]
    rw [hdict_sum]
    congr 1
    refine List.map_congr_left ?_
    intro w hw
    simpa using hlookup w hw
  · -- decisive + ties = total
    simp only [get_results]
    rw [hdict_sum]
    have hsum := sum_winCounts db.votes
    have : (nonTieWinners.map (winCount db)).sum
        = (db.votes.filter (fun v => v.winner ≠ Winner.tie)).length := by
      rw [← hsum]
      congr 1
    rw [this]
    have hpart := List.length_eq_length_filter_add
      (l := db.votes) (fun v => v.winner ≠ Winner.tie)
    rw [hpart]
    congr 2
    refine List.filter_congr ?_
    intro v _
    simp [decide_not]
  · -- win percentage formula
    intro m hm
    simp only [get_results, List.mem_map] at hm ⊢
    rcases hm with ⟨w, _, rfl⟩
    by_cases h0 : ((winCountsDict db).map Prod.snd).sum = 0
    · simp [h0]
    · rw [if_neg h0, if_pos (Nat.pos_of_ne_zero h0)]

/-- A concrete state for the C8 witness: one tie vote, no decisive votes. -/
def dbC8 : DBState :=
  { prompts := [{ id := 1, text := "p" }], images := [], chunks := [],
    chunkPrompts := [],
    sessions := [{ id := 1, status := SessionStatus.active, chunkId := none,
                   createdAt := 0, lastActivity := 0, completedAt := none }],
    votes := [{ sessionId := 1, promptId := 1, winner := Winner.tie,
                reactionTimeMs := none, updatedAt := none }] }

/-- Witness for C8: on `dbC8` the `gpt5` row is in the results with zero wins,
and its win percentage follows the claimed formula (here `0`). -/
theorem get_results_aggregation_correct_witness :
    ({ modelId := Winner.gpt5, wins := 0, winPercentage := 0 } : ModelResult)
        ∈ (get_results dbC8).models ∧
    ({ modelId := Winner.gpt5, wins := 0, winPercentage := 0 } : ModelResult).winPercentage
      = (if (get_results dbC8).totalDecisiveVotes = 0 then 0
         else (({ modelId := Winner.gpt5, wins := 0, winPercentage := 0 }
            : ModelResult).wins : ℚ)
              / ((get_results dbC8).totalDecisiveVotes : ℚ) * 100) :=
  ⟨by decide,
    (get_results_aggregation_correct dbC8).2.2
      { modelId := Winner.gpt5, wins := 0, winPercentage := 0 } (by decide)⟩

/-! ### Session-lifecycle infrastructure -/

lemma find?_map_of_pred {α : Type} (g : α → α) (p : α → Bool)
    (hg : ∀ a, p (g a) = p a) :
    ∀ l : List α, (l.map g).find? p = (l.find? p).map g := by
  intro l
  induction l with
  | nil => rfl
  | cons a t ih =>
    cases ha : p a with
    | true =>
      rw [List.map_cons, List.find?_cons_of_pos _ (by rw [hg a]; exact ha),
        List.find?_cons_of_pos _ ha]
      rfl
    | false =>
      rw [List.map_cons, List.find?_cons_of_neg _ (by simp [hg a, ha]),
        List.find?_cons_of_neg _ (by simp [ha]), ih]

lemma updateActivityRec_id (db : DBState) (s : SessionRec) (now : Int) :
    (updateActivityRec db s now).id = s.id := by
  unfold updateActivityRec
  split
  case isTrue =>
    split
    case isTrue => split <;> rfl
    case isFalse => rfl
  case isFalse => rfl

lemma updateActivityRec_chunkId (db : DBState) (s : SessionRec) (now : Int) :
    (updateActivityRec db s now).chunkId = s.chunkId := by
  unfold updateActivityRec
  split
  case isTrue =>
    split
    case isTrue => split <;> rfl
    case isFalse => rfl
  case isFalse => rfl

lemma updateActivityRec_completedAt (db : DBState) (s : SessionRec) (now : Int) :
    (updateActivityRec db s now).completedAt = s.completedAt := by
  unfold updateActivityRec
  split
  case isTrue =>
    split
    case isTrue => split <;> rfl
    case isFalse => rfl
  case isFalse => rfl

lemma updateActivityRec_lastActivity (db : DBState) (s : SessionRec) (now : Int) :
    (updateActivityRec db s now).lastActivity = now := by
  unfold updateActivityRec
  split
  case isTrue =>
    split
    case isTrue => split <;> rfl
    case isFalse => rfl
  case isFalse => rfl

/-- The abandonment decision of `update_session_activity`, as one formula: the
status flips to `abandoned` exactly when the session was active, strictly more
than 24 hours passed since the *old* `last_activity`, and the session's vote
count is below its chunk's prompt count. -/
lemma updateActivityRec_status (db : DBState) (s : SessionRec) (now : Int) :
    (updateActivityRec db s now).status =
      if s.status = SessionStatus.active ∧ now - s.lastActivity > HOURS24 ∧
          voteCountOf db s.id < chunkPromptCount db s.chunkId
      then SessionStatus.abandoned else s.status := by
  unfold updateActivityRec
  by_cases h1 : s.status = SessionStatus.active
  · by_cases h2 : now - s.lastActivity > HOURS24
    · by_cases h3 : voteCountOf db s.id < chunkPromptCount db s.chunkId
      · rw [if_pos h1, if_pos h2, if_pos h3, if_pos ⟨h1, h2, h3⟩]
      · rw [if_pos h1, if_pos h2, if_neg h3,
          if_neg (fun h => h3 h.2.2)]
    · rw [if_pos h1, if_neg h2, if_neg (fun h => h2 h.2.1)]
  · rw [if_neg h1, if_neg (fun h => h1 h.1)]

lemma findSession_setSessionRec (db : DBState) (sid2 : Nat)
    (f : SessionRec → SessionRec) (hf : ∀ s, (f s).id = s.id) (sid : Nat) :
    findSession (setSessionRec db sid2 f) sid
      = (findSession db sid).map (fun t => if t.id = sid2 then f t else t) := by
  unfold findSession setSessionRec
  exact find?_map_of_pred _ _
    (fun a => by by_cases h : a.id = sid2 <;> simp [h, hf a]) db.sessions

lemma findSession_updateSessionActivity (db : DBState) (sid2 sid : Nat) (now : Int) :
    findSession (updateSessionActivity db sid2 now) sid
      = (findSession db sid).map
          (fun t => if t.id = sid2 then updateActivityRec db t now else t) :=
  findSession_setSessionRec db sid2 _ (fun s => updateActivityRec_id db s now) sid

/-- Tables other than `sessions` are untouched by `setSessionRec`. -/
lemma setSessionRec_tables (db : DBState) (sid : Nat) (f : SessionRec → SessionRec) :
    (setSessionRec db sid f).prompts = db.prompts ∧
    (setSessionRec db sid f).images = db.images ∧
    (setSessionRec db sid f).chunks = db.chunks ∧
    (setSessionRec db sid f).chunkPrompts = db.chunkPrompts ∧
    (setSessionRec db sid f).votes = db.votes :=
  ⟨rfl, rfl, rfl, rfl, rfl⟩

/-- The timestamp (`datetime.now`) at which an operation runs. -/
def opNow : Op → Int
  | Op.start now _ => now
  | Op.next _ now _ => now
  | Op.vote _ now => now
  | Op.status _ now => now

lemma findSession_id {db : DBState} {sid : Nat} {s : SessionRec}
    (h : findSession db sid = some s) : s.id = sid := by
  have := List.find?_some h
  simpa using this

/-- How a single operation can change one session row: it is untouched, or it
goes through the activity/abandonment update, or (only in `next_prompt`, when
its chunk has no unvoted prompt left and it is still active after the activity
update) it is completed. -/
lemma runOp_session_shape (db : DBState) (op : Op) (sid : Nat) (s : SessionRec)
    (hs : findSession db sid = some s) :
    ∃ s', findSession (runOp db op) sid = some s' ∧
      (s' = s ∨
       s' = updateActivityRec db s (opNow op) ∨
       (∃ c, s.chunkId = some c ∧
        (updateActivityRec db s (opNow op)).status = SessionStatus.active ∧
        unvotedPrompts (updateSessionActivity db sid (opNow op)) c sid = [] ∧
        s' = completeRec (opNow op) (updateActivityRec db s (opNow op)))) := by
  have hid : s.id = sid := findSession_id hs
  cases op with
  | start now k =>
    refine ⟨s, ?_, Or.inl rfl⟩
    simp only [runOp, start_session]
    cases hassign : assign_chunk_to_session db k with
    | error e => exact hs
    | ok cid =>
      show ({ db with sessions := _ } : DBState).sessions.find? _ = some s
      rw [List.find?_append]
      unfold findSession at hs
      rw [hs]
      rfl
  | next sidOpt now k =>
    cases sidOpt with
    | none => exact ⟨s, hs, Or.inl rfl⟩
    | some sid2 =>
      simp only [runOp, next_prompt]
      cases h0 : findSession db sid2 with
      | none => exact ⟨s, hs, Or.inl rfl⟩
      | some s0 =>
        have hfind1 : findSession (updateSessionActivity db sid2 now) sid
            = some (if s.id = sid2 then updateActivityRec db s now else s) := by
          rw [findSession_updateSessionActivity, hs]
          rfl
        dsimp only
        cases hc : (updateActivityRec db s0 now).chunkId with
        | none =>
          refine ⟨_, hfind1, ?_⟩
          by_cases h2 : s.id = sid2
          · rw [if_pos h2]; exact Or.inr (Or.inl rfl)
          · rw [if_neg h2]; exact Or.inl rfl
        | some c =>
          dsimp only
          by_cases hemp :
              (unvotedPrompts (updateSessionActivity db sid2 now) c sid2).isEmpty = true
          · rw [if_pos hemp]
            dsimp only
            by_cases hact :
                (updateActivityRec db s0 now).status = SessionStatus.active
            · rw [if_pos hact]
              by_cases h2 : s.id = sid2
              · -- the tracked session is the one being completed
                have hsid2 : sid = sid2 := hid ▸ h2
                subst hsid2
                have hss0 : s0 = s := by
                  rw [hs] at h0
                  injection h0 with h
                  exact h.symm
                rw [hss0] at hact
                refine ⟨_, ?_, Or.inr (Or.inr ⟨c, ?_, hact, List.isEmpty_iff.mp hemp, rfl⟩)⟩
                · rw [findSession_setSessionRec (updateSessionActivity db sid now) sid
                      (completeRec now) (fun t => rfl) sid, hfind1, if_pos h2]
                  rw [Option.map_some']
                  rw [if_pos ((updateActivityRec_id db s now).trans h2)]
                  rfl
                · rw [← updateActivityRec_chunkId db s now, ← hss0]
                  exact hc
              · refine ⟨s, ?_, Or.inl rfl⟩
                rw [findSession_setSessionRec (updateSessionActivity db sid2 now) sid2
                    (completeRec now) (fun t => rfl) sid, hfind1, if_neg h2]
                rw [Option.map_some']
                rw [if_neg h2]
            · rw [if_neg hact]
              refine ⟨_, hfind1, ?_⟩
              by_cases h2 : s.id = sid2
              · rw [if_pos h2]; exact Or.inr (Or.inl rfl)
              · rw [if_neg h2]; exact Or.inl rfl
          · rw [if_neg hemp]
            by_cases hcard :
                ((updateSessionActivity db sid2 now).images.filter (fun im =>
                  im.promptId = ((unvotedPrompts (updateSessionActivity db sid2 now) c sid2).getD
                    (k % (unvotedPrompts (updateSessionActivity db sid2 now) c sid2).length)
                    { id := 0, text := "" }).id)).length ≠ 5
            · rw [if_pos hcard]
              refine ⟨_, hfind1, ?_⟩
              by_cases h2 : s.id = sid2
              · rw [if_pos h2]; exact Or.inr (Or.inl rfl)
              · rw [if_neg h2]; exact Or.inl rfl
            · rw [if_neg hcard]
              refine ⟨_, hfind1, ?_⟩
              by_cases h2 : s.id = sid2
              · rw [if_pos h2]; exact Or.inr (Or.inl rfl)
              · rw [if_neg h2]; exact Or.inl rfl
  | vote v now =>
    cases hvs : v.sessionId with
    | none =>
      refine ⟨s, ?_, Or.inl rfl⟩
      simp only [runOp, cast_vote, hvs]
      exact hs
    | some sid2 =>
      simp only [runOp, cast_vote, hvs]
      cases h0 : findSession db sid2 with
      | none => exact ⟨s, hs, Or.inl rfl⟩
      | some s0 =>
        have hfind1 : findSession (updateSessionActivity db sid2 now) sid
            = some (if s.id = sid2 then updateActivityRec db s now else s) := by
          rw [findSession_updateSessionActivity, hs]
          rfl
        dsimp only
        cases hw : parseWinner v.winnerModel with
        | none =>
          refine ⟨if s.id = sid2 then updateActivityRec db s now else s, hfind1, ?_⟩
          by_cases h2 : s.id = sid2
          · rw [if_pos h2]; exact Or.inr (Or.inl rfl)
          · rw [if_neg h2]; exact Or.inl rfl
        | some w =>
          dsimp only
          cases hp : findPrompt (updateSessionActivity db sid2 now) v.promptId with
          | none =>
            refine ⟨if s.id = sid2 then updateActivityRec db s now else s, hfind1, ?_⟩
            by_cases h2 : s.id = sid2
            · rw [if_pos h2]; exact Or.inr (Or.inl rfl)
            · rw [if_neg h2]; exact Or.inl rfl
          | some p =>
            dsimp only
            cases hv : findVote (updateSessionActivity db sid2 now) sid2 v.promptId with
            | some v0 =>
              refine ⟨if s.id = sid2 then updateActivityRec db s now else s, hfind1, ?_⟩
              by_cases h2 : s.id = sid2
              · rw [if_pos h2]; exact Or.inr (Or.inl rfl)
              · rw [if_neg h2]; exact Or.inl rfl
            | none =>
              refine ⟨if s.id = sid2 then updateActivityRec db s now else s, hfind1, ?_⟩
              by_cases h2 : s.id = sid2
              · rw [if_pos h2]; exact Or.inr (Or.inl rfl)
              · rw [if_neg h2]; exact Or.inl rfl
  | status sidOpt now =>
    cases sidOpt with
    | none => exact ⟨s, hs, Or.inl rfl⟩
    | some sid2 =>
      simp only [runOp, get_session_status]
      cases h0 : findSession db sid2 with
      | none => exact ⟨s, hs, Or.inl rfl⟩
      | some s0 =>
        have hfind1 : findSession (updateSessionActivity db sid2 now) sid
            = some (if s.id = sid2 then updateActivityRec db s now else s) := by
          rw [findSession_updateSessionActivity, hs]
          rfl
        refine ⟨if s.id = sid2 then updateActivityRec db s now else s, hfind1, ?_⟩
        by_cases h2 : s.id = sid2
        · rw [if_pos h2]; exact Or.inr (Or.inl rfl)
        · rw [if_neg h2]; exact Or.inl rfl

lemma chunkPromptCount_none (db : DBState) : chunkPromptCount db none = 0 := by
  simp [chunkPromptCount]

lemma completeRec_status (now : Int) (t : SessionRec) :
    (completeRec now t).status = SessionStatus.completed := rfl

/-! ### C3: lazy abandonment check -/

/-- **C3.**  Across every operation, a session row flips to `abandoned` only
when it was `active`, strictly more than 24 hours passed since its (pre-refresh)
`last_activity`, and its vote count is below its chunk's item count (or the
catalog's, for a chunk-less session — vacuous here, since the code compares a
chunk-less session's votes against 0); a session that is not `active`
(`completed` or `abandoned`) keeps its status. -/
theorem session_abandoned_only_when_stale (db : DBState) (op : Op) (sid : Nat)
    (s s' : SessionRec)
    (hs : findSession db sid = some s)
    (hs' : findSession (runOp db op) sid = some s') :
    (s'.status = SessionStatus.abandoned → s.status ≠ SessionStatus.abandoned →
      s.status = SessionStatus.active ∧
      opNow op - s.lastActivity > HOURS24 ∧
      ((∃ c, s.chunkId = some c ∧
          voteCountOf db sid < chunkPromptCount db (some c)) ∨
       (s.chunkId = none ∧ voteCountOf db sid < db.prompts.length))) ∧
    (s.status ≠ SessionStatus.active → s'.status = s.status) := by
  have hid : s.id = sid := findSession_id hs
  obtain ⟨s'', hfind'', hshape⟩ := runOp_session_shape db op sid s hs
  rw [hs'] at hfind''
  injection hfind'' with heq
  subst heq
  rcases hshape with rfl | rfl | ⟨c, hchunk, hact, hunv, rfl⟩
  · exact ⟨fun h1 h2 => absurd h1 h2, fun _ => rfl⟩
  · constructor
    · intro h1 h2
      rw [updateActivityRec_status] at h1
      by_cases hcond : s.status = SessionStatus.active ∧
          opNow op - s.lastActivity > HOURS24 ∧
          voteCountOf db s.id < chunkPromptCount db s.chunkId
      · obtain ⟨ha, ht, hv⟩ := hcond
        refine ⟨ha, ht, ?_⟩
        cases hck : s.chunkId with
        | none =>
          rw [hck, chunkPromptCount_none] at hv
          exact absurd hv (Nat.not_lt_zero _)
        | some c =>
          rw [hck] at hv
          rw [hid] at hv
          exact Or.inl ⟨c, rfl, hv⟩
      · rw [if_neg hcond] at h1
        exact absurd h1 h2
    · intro h2
      rw [updateActivityRec_status, if_neg (fun h => h2 h.1)]
  · have hsact : s.status = SessionStatus.active := by
      rw [updateActivityRec_status] at hact
      by_cases hcond : s.status = SessionStatus.active ∧
          opNow op - s.lastActivity > HOURS24 ∧
          voteCountOf db s.id < chunkPromptCount db s.chunkId
      · rw [if_pos hcond] at hact
        exact absurd hact (by intro h; cases h)
      · rw [if_neg hcond] at hact
        exact hact
    constructor
    · intro h1 _
      rw [completeRec_status] at h1
      cases h1
    · intro h2
      exact absurd hsact h2

/-- A concrete state for the C3 witness: one active session on chunk 10 with
one prompt and no votes, last active at time 0. -/
def dbC3 : DBState :=
  { prompts := [{ id := 1, text := "p" }], images := [], chunks := [10],
    chunkPrompts := [(10, 1)],
    sessions := [{ id := 1, status := SessionStatus.active, chunkId := some 10,
                   createdAt := 0, lastActivity := 0, completedAt := none }],
    votes := [] }

/-- The session row of `dbC3`. -/
def sC3 : SessionRec :=
  { id := 1, status := SessionStatus.active, chunkId := some 10,
    createdAt := 0, lastActivity := 0, completedAt := none }

/-- The same row after a status query at time 100000 (> 24h later): abandoned,
activity refreshed. -/
def sC3' : SessionRec :=
  { id := 1, status := SessionStatus.abandoned, chunkId := some 10,
    createdAt := 0, lastActivity := 100000, completedAt := none }

/-- Witness for C3: a status query at `now = 100000` on the stale incomplete
session of `dbC3` abandons it, and the characterization theorem applies. -/
theorem session_abandoned_only_when_stale_witness :
    findSession dbC3 1 = some sC3 ∧
    findSession (runOp dbC3 (Op.status (some 1) 100000)) 1 = some sC3' ∧
    (sC3'.status = SessionStatus.abandoned →
      sC3.status ≠ SessionStatus.abandoned →
      sC3.status = SessionStatus.active ∧
      opNow (Op.status (some 1) 100000) - sC3.lastActivity > HOURS24 ∧
      ((∃ c, sC3.chunkId = some c ∧
          voteCountOf dbC3 1 < chunkPromptCount dbC3 (some c)) ∨
       (sC3.chunkId = none ∧ voteCountOf dbC3 1 < dbC3.prompts.length))) ∧
    (sC3.status ≠ SessionStatus.active → sC3'.status = sC3.status) :=
  ⟨by decide, by decide,
    (session_abandoned_only_when_stale dbC3 (Op.status (some 1) 100000) 1 sC3 sC3'
      (by decide) (by decide)).1,
    (session_abandoned_only_when_stale dbC3 (Op.status (some 1) 100000) 1 sC3 sC3'
      (by decide) (by decide)).2⟩

/-! ### Well-formedness preservation -/

lemma nodup_append_singleton {α : Type} {l : List α} {a : α}
    (h : a ∉ l) (h2 : l.Nodup) : (l ++ [a]).Nodup := by
  rw [List.nodup_append]
  refine ⟨h2, List.nodup_singleton a, ?_⟩
  intro x hx hxa
  rw [List.mem_singleton] at hxa
  exact h (hxa ▸ hx)

lemma le_foldr_max (l : List Nat) : ∀ x ∈ l, x ≤ l.foldr max 0 := by
  induction l with
  | nil => intro x hx; exact absurd hx (List.not_mem_nil x)
  | cons a t ih =>
    intro x hx
    rcases List.mem_cons.mp hx with rfl | hxt
    · exact le_max_left _ _
    · exact le_trans (ih x hxt) (le_max_right _ _)

lemma freshSessionId_not_mem (db : DBState) :
    freshSessionId db ∉ db.sessions.map (fun s => s.id) := by
  intro h
  have := le_foldr_max (db.sessions.map (fun s => s.id)) _ h
  unfold freshSessionId at this
  omega

/-- All tables except `sessions` and `votes` are invariant under every
operation. -/
lemma runOp_tables (db : DBState) (op : Op) :
    (runOp db op).prompts = db.prompts ∧
    (runOp db op).images = db.images ∧
    (runOp db op).chunks = db.chunks ∧
    (runOp db op).chunkPrompts = db.chunkPrompts := by
  cases op with
  | start now k =>
    simp only [runOp, start_session]
    cases assign_chunk_to_session db k <;> exact ⟨rfl, rfl, rfl, rfl⟩
  | next sidOpt now k =>
    simp only [runOp, next_prompt]
    rcases sidOpt with _ | sid2
    · exact ⟨rfl, rfl, rfl, rfl⟩
    · dsimp only
      cases findSession db sid2 with
      | none => exact ⟨rfl, rfl, rfl, rfl⟩
      | some s0 =>
        dsimp only
        cases (updateActivityRec db s0 now).chunkId with
        | none => exact ⟨rfl, rfl, rfl, rfl⟩
        | some c =>
          dsimp only
          split
          · split <;> exact ⟨rfl, rfl, rfl, rfl⟩
          · split <;> exact ⟨rfl, rfl, rfl, rfl⟩
  | vote v now =>
    simp only [runOp, cast_vote]
    rcases hvs : v.sessionId with _ | sid2
    · exact ⟨rfl, rfl, rfl, rfl⟩
    · dsimp only
      cases findSession db sid2 with
      | none => exact ⟨rfl, rfl, rfl, rfl⟩
      | some s0 =>
        dsimp only
        cases parseWinner v.winnerModel with
        | none => exact ⟨rfl, rfl, rfl, rfl⟩
        | some w =>
          dsimp only
          cases findPrompt (updateSessionActivity db sid2 now) v.promptId with
          | none => exact ⟨rfl, rfl, rfl, rfl⟩
          | some p =>
            dsimp only
            cases findVote (updateSessionActivity db sid2 now) sid2 v.promptId <;>
              exact ⟨rfl, rfl, rfl, rfl⟩
  | status sidOpt now =>
    simp only [runOp, get_session_status]
    rcases sidOpt with _ | sid2
    · exact ⟨rfl, rfl, rfl, rfl⟩
    · dsimp only
      cases findSession db sid2 <;> exact ⟨rfl, rfl, rfl, rfl⟩

/-- How an operation can change the `sessions` table: unchanged, mapped by an
id-preserving function that also preserves the active-has-no-completion-stamp
invariant, or extended with one fresh active session. -/
lemma runOp_sessions_shape (db : DBState) (op : Op) :
    (runOp db op).sessions = db.sessions ∨
    (∃ g : SessionRec → SessionRec,
      (∀ t, (g t).id = t.id) ∧
      (∀ t, (t.status = SessionStatus.active → t.completedAt = none) →
        (g t).status = SessionStatus.active → (g t).completedAt = none) ∧
      (runOp db op).sessions = db.sessions.map g) ∨
    (∃ cid : Nat, (runOp db op).sessions = db.sessions ++
      [{ id := freshSessionId db, status := SessionStatus.active,
         chunkId := some cid, createdAt := opNow op,
         lastActivity := opNow op, completedAt := none }]) := by
  have hgact : ∀ now : Int, ∀ t : SessionRec,
      (t.status = SessionStatus.active → t.completedAt = none) →
      (updateActivityRec db t now).status = SessionStatus.active →
      (updateActivityRec db t now).completedAt = none := by
    intro now t hinv hact
    rw [updateActivityRec_status] at hact
    rw [updateActivityRec_completedAt]
    by_cases hcond : t.status = SessionStatus.active ∧
        now - t.lastActivity > HOURS24 ∧
        voteCountOf db t.id < chunkPromptCount db t.chunkId
    · rw [if_pos hcond] at hact
      cases hact
    · rw [if_neg hcond] at hact
      exact hinv hact
  have hupd : ∀ sid2 : Nat, ∀ now : Int,
      ∃ g : SessionRec → SessionRec,
        (∀ t, (g t).id = t.id) ∧
        (∀ t, (t.status = SessionStatus.active → t.completedAt = none) →
          (g t).status = SessionStatus.active → (g t).completedAt = none) ∧
        (updateSessionActivity db sid2 now).sessions = db.sessions.map g := by
    intro sid2 now
    refine ⟨fun t => if t.id = sid2 then updateActivityRec db t now else t,
      fun t => by by_cases h : t.id = sid2 <;> simp [h, updateActivityRec_id],
      fun t hinv => ?_, rfl⟩
    dsimp only
    by_cases h : t.id = sid2
    · rw [if_pos h]; exact hgact now t hinv
    · rw [if_neg h]; exact hinv
  cases op with
  | start now k =>
    simp only [runOp, start_session]
    cases assign_chunk_to_session db k with
    | error e => exact Or.inl rfl
    | ok cid => exact Or.inr (Or.inr ⟨cid, rfl⟩)
  | next sidOpt now k =>
    simp only [runOp, next_prompt]
    rcases sidOpt with _ | sid2
    · exact Or.inl rfl
    · dsimp only
      cases findSession db sid2 with
      | none => exact Or.inl rfl
      | some s0 =>
        dsimp only
        cases (updateActivityRec db s0 now).chunkId with
        | none => exact Or.inr (Or.inl (hupd sid2 now))
        | some c =>
          dsimp only
          split
          · split
            · -- completion: activity update then completion update
              obtain ⟨g1, hg1id, hg1inv, hg1⟩ := hupd sid2 now
              refine Or.inr (Or.inl ⟨(fun t =>
                if t.id = sid2 then completeRec now t else t) ∘ g1, ?_, ?_, ?_⟩)
              · intro t
                show (if (g1 t).id = sid2 then completeRec now (g1 t) else g1 t).id = t.id
                by_cases h : (g1 t).id = sid2
                · rw [if_pos h]; exact hg1id t
                · rw [if_neg h]; exact hg1id t
              · intro t hinv
                show (if (g1 t).id = sid2 then completeRec now (g1 t) else g1 t).status
                      = SessionStatus.active →
                    (if (g1 t).id = sid2 then completeRec now (g1 t) else g1 t).completedAt
                      = none
                by_cases h : (g1 t).id = sid2
                · rw [if_pos h]
                  intro hact
                  have hcomp : (completeRec now (g1 t)).status = SessionStatus.completed := rfl
                  rw [hcomp] at hact
                  cases hact
                · rw [if_neg h]
                  exact hg1inv t hinv
              · have hset : (setSessionRec (updateSessionActivity db sid2 now) sid2
                      (completeRec now)).sessions
                    = ((updateSessionActivity db sid2 now).sessions).map
                        (fun t => if t.id = sid2 then completeRec now t else t) := rfl
                rw [hset, hg1, List.map_map]
            · exact Or.inr (Or.inl (hupd sid2 now))
          · split
            · exact Or.inr (Or.inl (hupd sid2 now))
            · exact Or.inr (Or.inl (hupd sid2 now))
  | vote v now =>
    simp only [runOp, cast_vote]
    rcases v.sessionId with _ | sid2
    · exact Or.inl rfl
    · dsimp only
      cases findSession db sid2 with
      | none => exact Or.inl rfl
      | some s0 =>
        dsimp only
        cases parseWinner v.winnerModel with
        | none => exact Or.inr (Or.inl (hupd sid2 now))
        | some w =>
          dsimp only
          cases findPrompt (updateSessionActivity db sid2 now) v.promptId with
          | none => exact Or.inr (Or.inl (hupd sid2 now))
          | some p =>
            dsimp only
            cases findVote (updateSessionActivity db sid2 now) sid2 v.promptId <;>
              exact Or.inr (Or.inl (hupd sid2 now))
  | status sidOpt now =>
    simp only [runOp, get_session_status]
    rcases sidOpt with _ | sid2
    · exact Or.inl rfl
    · dsimp only
      cases findSession db sid2 with
      | none => exact Or.inl rfl
      | some s0 => exact Or.inr (Or.inl (hupd sid2 now))

/-- How an operation can change the `votes` table: unchanged, an in-place
update of the unique `(session, prompt)` row, or an insert of a new row whose
`(session, prompt)` pair was absent and whose prompt exists. -/
lemma runOp_votes_shape (db : DBState) (op : Op) :
    (runOp db op).votes = db.votes ∨
    (∃ (sid2 pid : Nat) (w : Winner) (rt : Option Int) (now : Int),
      (runOp db op).votes = db.votes.map (fun v =>
        if v.sessionId = sid2 && v.promptId = pid then
          { v with winner := w, reactionTimeMs := rt, updatedAt := some now }
        else v)) ∨
    (∃ sid2 pid w rt,
      findVote db sid2 pid = none ∧ (∃ p, findPrompt db pid = some p) ∧
      (runOp db op).votes = db.votes ++
        [{ sessionId := sid2, promptId := pid, winner := w,
           reactionTimeMs := rt, updatedAt := none }]) := by
  cases op with
  | start now k =>
    simp only [runOp, start_session]
    cases assign_chunk_to_session db k <;> exact Or.inl rfl
  | next sidOpt now k =>
    simp only [runOp, next_prompt]
    rcases sidOpt with _ | sid2
    · exact Or.inl rfl
    · dsimp only
      cases findSession db sid2 with
      | none => exact Or.inl rfl
      | some s0 =>
        dsimp only
        cases (updateActivityRec db s0 now).chunkId with
        | none => exact Or.inl rfl
        | some c =>
          dsimp only
          split
          · split <;> exact Or.inl rfl
          · split <;> exact Or.inl rfl
  | vote v now =>
    simp only [runOp, cast_vote]
    rcases v.sessionId with _ | sid2
    · exact Or.inl rfl
    · dsimp only
      cases findSession db sid2 with
      | none => exact Or.inl rfl
      | some s0 =>
        dsimp only
        cases parseWinner v.winnerModel with
        | none => exact Or.inl rfl
        | some w =>
          dsimp only
          cases hp : findPrompt (updateSessionActivity db sid2 now) v.promptId with
          | none => exact Or.inl rfl
          | some p =>
            dsimp only
            cases hv : findVote (updateSessionActivity db sid2 now) sid2 v.promptId with
            | some v0 =>
              exact Or.inr (Or.inl ⟨sid2, v.promptId, w, v.reactionTimeMs, now, rfl⟩)
            | none =>
              exact Or.inr (Or.inr ⟨sid2, v.promptId, w, v.reactionTimeMs, hv, ⟨p, hp⟩, rfl⟩)
  | status sidOpt now =>
    simp only [runOp, get_session_status]
    rcases sidOpt with _ | sid2
    · exact Or.inl rfl
    · dsimp only
      cases findSession db sid2 <;> exact Or.inl rfl

/-- Every operation preserves well-formedness. -/
lemma wf_runOp (db : DBState) (op : Op) (h : WFdb db) : WFdb (runOp db op) := by
  obtain ⟨hsid, hpid, hcp, hvp, hvfk, hact, hcpfk⟩ := h
  obtain ⟨hT1, hT2, hT3, hT4⟩ := runOp_tables db op
  refine ⟨?_, ?_, ?_, ?_, ?_, ?_, ?_⟩
  · -- session ids stay unique
    rcases runOp_sessions_shape db op with hS | ⟨g, hgid, _, hS⟩ | ⟨cid, hS⟩
    · rw [hS]; exact hsid
    · rw [hS, List.map_map]
      have heq : db.sessions.map ((fun s => s.id) ∘ g)
          = db.sessions.map (fun s => s.id) :=
        List.map_congr_left (fun t _ => hgid t)
      rw [heq]
      exact hsid
    · rw [hS, List.map_append]
      exact nodup_append_singleton (freshSessionId_not_mem db) hsid
  · rw [hT1]; exact hpid
  · rw [hT4]; exact hcp
  · -- vote (session, prompt) pairs stay unique
    rcases runOp_votes_shape db op with hV | ⟨sid2, pid, w, rt, now, hV⟩ |
      ⟨sid2, pid, w, rt, hnone, _, hV⟩
    · rw [hV]; exact hvp
    · rw [hV, List.map_map]
      have heq : db.votes.map ((fun v => (v.sessionId, v.promptId)) ∘ (fun v =>
          if v.sessionId = sid2 && v.promptId = pid then
            { v with winner := w, reactionTimeMs := rt, updatedAt := some now }
          else v)) = db.votes.map (fun v => (v.sessionId, v.promptId)) := by
        refine List.map_congr_left (fun v _ => ?_)
        show (((if v.sessionId = sid2 && v.promptId = pid then
            { v with winner := w, reactionTimeMs := rt, updatedAt := some now }
          else v) : VoteRec).sessionId, ((if v.sessionId = sid2 && v.promptId = pid then
            { v with winner := w, reactionTimeMs := rt, updatedAt := some now }
          else v) : VoteRec).promptId) = (v.sessionId, v.promptId)
        by_cases hcond : (v.sessionId = sid2 && v.promptId = pid) = true
        · rw [if_pos hcond]
        · rw [if_neg hcond]
      rw [heq]
      exact hvp
    · rw [hV, List.map_append]
      refine nodup_append_singleton ?_ hvp
      intro hmem
      rcases List.mem_map.mp hmem with ⟨v0, hv0, hkey⟩
      have hnot := List.find?_eq_none.mp hnone v0 hv0
      injection hkey with h1 h2
      rw [h1, h2] at hnot
      simp at hnot
  · -- votes reference existing prompts
    rcases runOp_votes_shape db op with hV | ⟨sid2, pid, w, rt, now, hV⟩ |
      ⟨sid2, pid, w, rt, hnone, ⟨p, hp⟩, hV⟩
    · rw [hV, hT1]; exact hvfk
    · rw [hV, hT1]
      intro v' hv'
      rcases List.mem_map.mp hv' with ⟨v0, hv0, rfl⟩
      by_cases hcond : (v0.sessionId = sid2 && v0.promptId = pid) = true
      · rw [if_pos hcond]
        exact hvfk v0 hv0
      · rw [if_neg hcond]
        exact hvfk v0 hv0
    · rw [hV, hT1]
      intro v' hv'
      rcases List.mem_append.mp hv' with hold | hnew
      · exact hvfk v' hold
      · rw [List.mem_singleton] at hnew
        subst hnew
        show pid ∈ db.prompts.map (fun p => p.id)
        have hpmem : p ∈ db.prompts := List.mem_of_find?_eq_some hp
        have hpeq : p.id = pid := by
          have := List.find?_some hp
          simpa using this
        exact List.mem_map.mpr ⟨p, hpmem, hpeq⟩
  · -- active sessions have no completion stamp
    rcases runOp_sessions_shape db op with hS | ⟨g, hgid, hginv, hS⟩ | ⟨cid, hS⟩
    · rw [hS]; exact hact
    · rw [hS]
      intro s' hs' h1
      rcases List.mem_map.mp hs' with ⟨t, ht, rfl⟩
      exact hginv t (hact t ht) h1
    · rw [hS]
      intro s' hs' h1
      rcases List.mem_append.mp hs' with hold | hnew
      · exact hact s' hold h1
      · rw [List.mem_singleton] at hnew
        subst hnew
        rfl
  · rw [hT4, hT1]; exact hcpfk

/-- Well-formedness is preserved along any operation sequence. -/
lemma wf_runOps (db : DBState) (ops : List Op) (h : WFdb db) : WFdb (runOps db ops) := by
  induction ops generalizing db with
  | nil => exact h
  | cons o rest ih => exact ih (runOp db o) (wf_runOp db o h)

lemma active_of_updateActivityRec {db : DBState} {s : SessionRec} {now : Int}
    (h : (updateActivityRec db s now).status = SessionStatus.active) :
    s.status = SessionStatus.active := by
  rw [updateActivityRec_status] at h
  by_cases hcond : s.status = SessionStatus.active ∧
      now - s.lastActivity > HOURS24 ∧
      voteCountOf db s.id < chunkPromptCount db s.chunkId
  · rw [if_pos hcond] at h; cases h
  · rw [if_neg hcond] at h; exact h

/-- Once `completed_at` is set it is never overwritten, across any operation
sequence. -/
lemma completedAt_stable : ∀ (ops : List Op) (db : DBState), WFdb db →
    ∀ (sid : Nat) (s : SessionRec) (t : Int), findSession db sid = some s →
    s.completedAt = some t →
    ∀ s2, findSession (runOps db ops) sid = some s2 → s2.completedAt = some t := by
  intro ops
  induction ops with
  | nil =>
    intro db _ sid s t hs hc s2 h2
    have h2x : findSession db sid = some s2 := h2
    rw [hs] at h2x
    injection h2x with h
    rw [← h]
    exact hc
  | cons o rest ih =>
    intro db hwf sid s t hs hc s2 h2
    obtain ⟨s', hfind', hshape⟩ := runOp_session_shape db o sid s hs
    have hc' : s'.completedAt = some t := by
      rcases hshape with rfl | rfl | ⟨c, hchunk, hactive, hunv, rfl⟩
      · exact hc
      · rw [updateActivityRec_completedAt]; exact hc
      · -- the completion branch needs the session active, hence stamp-free
        have hsact : s.status = SessionStatus.active :=
          active_of_updateActivityRec hactive
        have hnone := hwf.2.2.2.2.2.1 s (List.mem_of_find?_eq_some hs) hsact
        rw [hnone] at hc
        cases hc
    exact ih (runOp db o) (wf_runOp db o hwf) sid s' t hfind' hc' s2 h2

lemma chunkPromptCount_some (db : DBState) (c : Nat) :
    chunkPromptCount db (some c) = (chunkPromptIds db c).length := by
  unfold chunkPromptCount chunkPromptIds
  rw [List.length_map]
  congr 1
  refine List.filter_congr ?_
  intro cp _
  simp

lemma length_votedIds (db : DBState) (sid : Nat) :
    (votedIds db sid).length = voteCountOf db sid := by
  simp [votedIds, voteCountOf]

/-! ### C2: completion transition -/

/-- **C2.**  A session transitions to `completed` only when it was active and
every prompt of its chunk already has a vote from it (and then `completed_at`
is stamped with the operation time); a `next_prompt` call on an active session
whose chunk is fully voted does perform the transition; and once set,
`completed_at` is never overwritten by any later operation. -/
theorem session_completion_iff (db : DBState) (op : Op) (sid : Nat)
    (s s' : SessionRec) (hwf : WFdb db)
    (hs : findSession db sid = some s)
    (hs' : findSession (runOp db op) sid = some s') :
    ((s.status ≠ SessionStatus.completed ∧ s'.status = SessionStatus.completed) →
      s.status = SessionStatus.active ∧ s.completedAt = none ∧
      s'.completedAt = some (opNow op) ∧
      (∃ c, s.chunkId = some c ∧
        ∀ pid ∈ chunkPromptIds db c, pid ∈ votedIds db sid)) ∧
    (∀ now k, op = Op.next (some sid) now k →
      s.status = SessionStatus.active →
      (∃ c, s.chunkId = some c ∧
        ∀ pid ∈ chunkPromptIds db c, pid ∈ votedIds db sid) →
      s'.status = SessionStatus.completed ∧ s'.completedAt = some now) ∧
    (∀ t, s.completedAt = some t → ∀ (ops : List Op) s2,
      findSession (runOps db ops) sid = some s2 → s2.completedAt = some t) := by
  have hid : s.id = sid := findSession_id hs
  refine ⟨?_, ?_, fun t hc ops s2 h2 =>
    completedAt_stable ops db hwf sid s t hs hc s2 h2⟩
  · -- only-if: obtain the shape of the step
    rintro ⟨hnc, hc⟩
    obtain ⟨s'', hfind'', hshape⟩ := runOp_session_shape db op sid s hs
    rw [hs'] at hfind''
    injection hfind'' with heq
    subst heq
    rcases hshape with rfl | rfl | ⟨c, hchunk, hactive, hunv, rfl⟩
    · exact absurd hc hnc
    · rw [updateActivityRec_status] at hc
      by_cases hcond : s.status = SessionStatus.active ∧
          opNow op - s.lastActivity > HOURS24 ∧
          voteCountOf db s.id < chunkPromptCount db s.chunkId
      · rw [if_pos hcond] at hc; cases hc
      · rw [if_neg hcond] at hc; exact absurd hc hnc
    · have hsact : s.status = SessionStatus.active :=
        active_of_updateActivityRec hactive
      have hnone := hwf.2.2.2.2.2.1 s (List.mem_of_find?_eq_some hs) hsact
      refine ⟨hsact, hnone, rfl, c, hchunk, ?_⟩
      -- from the empty unvoted list and the chunk-prompt foreign key
      have hunv0 : unvotedPrompts db c sid = [] := hunv
      intro pid hpid
      rcases List.mem_map.mp hpid with ⟨cp, hcpmem, hcpid⟩
      have hcpc : cp.1 = c := by
        have := (List.mem_filter.mp hcpmem).2
        simpa using this
      have hcpdb : cp ∈ db.chunkPrompts := (List.mem_filter.mp hcpmem).1
      rcases List.mem_map.mp (hwf.2.2.2.2.2.2 cp hcpdb) with ⟨p, hpmem, hpid_eq⟩
      have hnotp := List.filter_eq_nil_iff.mp hunv0 p hpmem
      have hp2 : p.id = pid := hpid_eq.trans hcpid
      by_cases hvoted : p.id ∈ votedIds db sid
      · rw [← hp2]
        exact hvoted
      · exfalso
        apply hnotp
        rw [Bool.and_eq_true]
        refine ⟨List.elem_eq_true_of_mem ?_, by simp [hvoted]⟩
        rw [hp2]
        exact hpid
  · -- if-direction: a next_prompt call on a fully voted active session
    rintro now k hop hsact ⟨c, hchunk, hvoted⟩
    subst hop
    have hunv : unvotedPrompts db c sid = [] := by
      unfold unvotedPrompts
      rw [List.filter_eq_nil_iff]
      intro p hp habs
      rw [Bool.and_eq_true] at habs
      obtain ⟨h1, h2⟩ := habs
      have hmem : p.id ∈ chunkPromptIds db c := by
        have := List.mem_of_elem_eq_true h1
        exact this
      have hv := hvoted p.id hmem
      have : p.id ∉ votedIds db sid := by
        simpa using h2
      exact this hv
    have hnodupids : (chunkPromptIds db c).Nodup := by
      refine List.Nodup.map_on ?_ (hwf.2.2.1.filter _)
      intro x hx y hy hxy
      have hxc : x.1 = c := by simpa using (List.mem_filter.mp hx).2
      have hyc : y.1 = c := by simpa using (List.mem_filter.mp hy).2
      cases x with
      | mk x1 x2 =>
        cases y with
        | mk y1 y2 =>
          simp only at hxc hyc hxy
          rw [hxc, hyc, hxy]
    have hcount : chunkPromptCount db (some c) ≤ voteCountOf db sid := by
      rw [chunkPromptCount_some, ← length_votedIds]
      exact (List.subperm_of_subset hnodupids hvoted).length_le
    have hupds : (updateActivityRec db s now).status = SessionStatus.active := by
      rw [updateActivityRec_status, if_neg]
      · exact hsact
      · intro hcond
        rw [hid, hchunk] at hcond
        exact absurd hcond.2.2 (Nat.not_lt.mpr hcount)
    have hchunk2 : (updateActivityRec db s now).chunkId = some c :=
      (updateActivityRec_chunkId db s now).trans hchunk
    have heval : (next_prompt db (some sid) now k).2
        = setSessionRec (updateSessionActivity db sid now) sid (completeRec now) := by
      simp only [next_prompt]
      rw [hs]
      dsimp only
      rw [hchunk2]
      dsimp only
      rw [if_pos (show (unvotedPrompts (updateSessionActivity db sid now) c sid).isEmpty
            = true by
          rw [show unvotedPrompts (updateSessionActivity db sid now) c sid = [] from hunv]
          rfl),
        if_pos hupds]
    have hfind2 : findSession (runOp db (Op.next (some sid) now k)) sid
        = some (completeRec now (updateActivityRec db s now)) := by
      show findSession (next_prompt db (some sid) now k).2 sid = _
      rw [heval, findSession_setSessionRec (updateSessionActivity db sid now) sid
          (completeRec now) (fun t => rfl) sid,
        findSession_updateSessionActivity, hs]
      show Option.map _ (Option.map _ (some s)) = _
      rw [Option.map_some', Option.map_some']
      rw [if_pos hid, if_pos ((updateActivityRec_id db s now).trans hid)]
    rw [hfind2] at hs'
    injection hs' with heq
    rw [← heq]
    exact ⟨rfl, rfl⟩

/-- A concrete state for the C2 witness: session 1 (active, chunk 10) has voted
on the only prompt of its chunk. -/
def dbC2 : DBState :=
  { prompts := [{ id := 1, text := "p" }], images := [], chunks := [10],
    chunkPrompts := [(10, 1)],
    sessions := [{ id := 1, status := SessionStatus.active, chunkId := some 10,
                   createdAt := 0, lastActivity := 0, completedAt := none }],
    votes := [{ sessionId := 1, promptId := 1, winner := Winner.gpt5,
                reactionTimeMs := none, updatedAt := none }] }

/-- The session row of `dbC2`. -/
def sC2 : SessionRec :=
  { id := 1, status := SessionStatus.active, chunkId := some 10,
    createdAt := 0, lastActivity := 0, completedAt := none }

/-- The same row after a `next_prompt` call at time 5: completed. -/
def sC2' : SessionRec :=
  { id := 1, status := SessionStatus.completed, chunkId := some 10,
    createdAt := 0, lastActivity := 5, completedAt := some 5 }

/-- Witness for C2: a `next_prompt` call on the fully voted active session of
`dbC2` completes it and stamps `completed_at`. -/
theorem session_completion_iff_witness :
    WFdb dbC2 ∧ findSession dbC2 1 = some sC2 ∧
    findSession (runOp dbC2 (Op.next (some 1) 5 0)) 1 = some sC2' ∧
    (sC2'.status = SessionStatus.completed ∧ sC2'.completedAt = some 5) :=
  ⟨by decide, by decide, by decide,
    (session_completion_iff dbC2 (Op.next (some 1) 5 0) 1 sC2 sC2'
      (by decide) (by decide) (by decide)).2.1 5 0 rfl (by decide)
      ⟨10, by decide, by decide⟩⟩

/-! ### C5: legacy (chunk-less) sessions -/

/-- **C5 (amended).**  For a legacy session whose chunk reference is null,
`next_prompt` does *not* fall back to the whole catalog: it fails with the
500-level error `Session has no chunk assigned` and performs no item
selection. -/
theorem legacy_session_next_fails (db : DBState) (sid : Nat) (s : SessionRec)
    (now : Int) (k : Nat)
    (hs : findSession db sid = some s) (hchunk : s.chunkId = none) :
    (next_prompt db (some sid) now k).1 = Except.error ApiErr.noChunkAssigned ∧
    statusOf ApiErr.noChunkAssigned = 500 := by
  refine ⟨?_, rfl⟩
  simp only [next_prompt]
  rw [hs]
  dsimp only
  rw [show (updateActivityRec db s now).chunkId = none from
    (updateActivityRec_chunkId db s now).trans hchunk]

/-- A concrete state with a legacy session (no chunk): one prompt, session 1
with `chunk_id = null`. -/
def dbC5 : DBState :=
  { prompts := [{ id := 1, text := "p" }], images := [], chunks := [],
    chunkPrompts := [],
    sessions := [{ id := 1, status := SessionStatus.active, chunkId := none,
                   createdAt := 0, lastActivity := 0, completedAt := none }],
    votes := [] }

/-- **C5 counterexample.**  On `dbC5` the next-item call for the legacy
session fails with `Session has no chunk assigned` instead of resolving the
whole catalog as its scope. -/
theorem legacy_session_next_fails_counterexample :
    (next_prompt dbC5 (some 1) 0 0).1 = Except.error ApiErr.noChunkAssigned := by
  rfl

/-- Witness for the amended C5. -/
theorem legacy_session_next_fails_witness :
    findSession dbC5 1 = some
      { id := 1, status := SessionStatus.active, chunkId := none,
        createdAt := 0, lastActivity := 0, completedAt := none } ∧
    ((next_prompt dbC5 (some 1) 7 3).1 = Except.error ApiErr.noChunkAssigned ∧
      statusOf ApiErr.noChunkAssigned = 500) :=
  ⟨by decide,
    legacy_session_next_fails dbC5 1
      { id := 1, status := SessionStatus.active, chunkId := none,
        createdAt := 0, lastActivity := 0, completedAt := none }
      7 3 (by decide) rfl⟩

/-! ### C7: item selector stays inside the chunk and avoids voted items -/

lemma getD_mod_mem_generic {α : Type} {l : List α} (hl : l ≠ []) (d : α) (k : Nat) :
    l.getD (k % l.length) d ∈ l := by
  have hlen : k % l.length < l.length := Nat.mod_lt _ (List.length_pos.mpr hl)
  rw [List.getD_eq_getElem _ _ hlen]
  exact List.getElem_mem hlen

/-- **C7.**  Whenever `next_prompt` returns an item, that item belongs to the
session's assigned chunk and has no vote from this session at selection time
(so an already-voted item is never returned, at this call or any later one). -/
theorem item_selector_in_chunk_unvoted (db : DBState) (sidOpt : Option Nat)
    (now : Int) (k : Nat) (out : PromptOut)
    (hok : (next_prompt db sidOpt now k).1 = Except.ok out)
    (hnd : out.done = false) :
    ∃ sid s c pid, sidOpt = some sid ∧ findSession db sid = some s ∧
      s.chunkId = some c ∧ out.promptId = some pid ∧
      (c, pid) ∈ db.chunkPrompts ∧ pid ∉ votedIds db sid := by
  cases sidOpt with
  | none => cases hok
  | some sid =>
    simp only [next_prompt] at hok
    cases h0 : findSession db sid with
    | none => rw [h0] at hok; cases hok
    | some s0 =>
      rw [h0] at hok
      dsimp only at hok
      cases hc : (updateActivityRec db s0 now).chunkId with
      | none => rw [hc] at hok; cases hok
      | some c =>
        rw [hc] at hok
        dsimp only at hok
        by_cases hemp :
            (unvotedPrompts (updateSessionActivity db sid now) c sid).isEmpty = true
        · rw [if_pos hemp] at hok
          injection hok with hout
          rw [← hout] at hnd
          cases hnd
        · rw [if_neg hemp] at hok
          split at hok
          · cases hok
          · injection hok with hout
            -- the selected prompt is a member of the unvoted list
            have hne : unvotedPrompts (updateSessionActivity db sid now) c sid ≠ [] := by
              intro h
              rw [h] at hemp
              exact hemp rfl
            have hmem := getD_mod_mem_generic hne { id := 0, text := "" } k
            set prompt := (unvotedPrompts (updateSessionActivity db sid now) c sid).getD
              (k % (unvotedPrompts (updateSessionActivity db sid now) c sid).length)
              { id := 0, text := "" } with hprompt
            have hmem2 : prompt ∈ unvotedPrompts db c sid := hmem
            unfold unvotedPrompts at hmem2
            have hfilter := (List.mem_filter.mp hmem2).2
            rw [Bool.and_eq_true] at hfilter
            obtain ⟨h1, h2⟩ := hfilter
            have hchunkmem : prompt.id ∈ chunkPromptIds db c :=
              List.mem_of_elem_eq_true h1
            have hnvoted : prompt.id ∉ votedIds db sid := by
              simpa using h2
            rcases List.mem_map.mp hchunkmem with ⟨cp, hcpmem, hcpid⟩
            have hcpc : cp.1 = c := by
              simpa using (List.mem_filter.mp hcpmem).2
            have hcpdb : cp ∈ db.chunkPrompts := (List.mem_filter.mp hcpmem).1
            refine ⟨sid, s0, c, prompt.id, rfl, h0,
              (updateActivityRec_chunkId db s0 now).symm.trans hc, ?_, ?_, hnvoted⟩
            · rw [← hout]
            · have : cp = (c, prompt.id) := by
                cases cp with
                | mk a b =>
                  simp only at hcpc hcpid
                  rw [hcpc, hcpid]
              rw [← this]
              exact hcpdb

/-! ### C9: image-cardinality guard -/

/-- The prompt `next_prompt` selects (`random.choice(unvoted_prompts)`,
line 236 of `main.py`), when the call reaches the selection point: the session
id parsed, the session was found, its chunk is set, and unvoted prompts
remain.  `none` when any earlier step exits first. -/
def selectedPrompt (db : DBState) (sidOpt : Option Nat) (now : Int) (k : Nat) :
    Option PromptRec :=
  match sidOpt with
  | none => none
  | some sid =>
    match findSession db sid with
    | none => none
    | some s0 =>
      match (updateActivityRec db s0 now).chunkId with
      | none => none
      | some c =>
        let unvoted := unvotedPrompts (updateSessionActivity db sid now) c sid
        if unvoted.isEmpty then none
        else some (unvoted.getD (k % unvoted.length) { id := 0, text := "" })

/-- **C9.**  When the selected prompt's image set does not have exactly 5
images, `next_prompt` fails with the 500 internal-consistency error
`ApiErr.imageCardinality` (and hence returns no item); any item actually
returned comes with exactly 5 images (the full image set of its prompt); and
when every catalog prompt has exactly 5 images that error is unreachable. -/
theorem image_cardinality_guard (db : DBState) (sidOpt : Option Nat)
    (now : Int) (k : Nat) :
    (∀ p, selectedPrompt db sidOpt now k = some p →
      (db.images.filter (fun im => im.promptId = p.id)).length ≠ 5 →
      (next_prompt db sidOpt now k).1 = Except.error ApiErr.imageCardinality) ∧
    (∀ out, (next_prompt db sidOpt now k).1 = Except.ok out → out.done = false →
      ∃ pid, out.promptId = some pid ∧
        out.images = some (db.images.filter (fun im => im.promptId = pid)) ∧
        (db.images.filter (fun im => im.promptId = pid)).length = 5) ∧
    ((∀ p ∈ db.prompts, (db.images.filter (fun im => im.promptId = p.id)).length = 5) →
      (next_prompt db sidOpt now k).1 ≠ Except.error ApiErr.imageCardinality) ∧
    statusOf ApiErr.imageCardinality = 500 := by
  refine ⟨?_, ?_, ?_, rfl⟩
  · -- a cardinality violation at the selected prompt raises the 500 error
    intro p hsel hcard
    cases sidOpt with
    | none => exact Option.noConfusion hsel
    | some sid =>
      simp only [selectedPrompt] at hsel
      simp only [next_prompt]
      cases h0 : findSession db sid with
      | none =>
        try rw [h0] at hsel
        exact Option.noConfusion hsel
      | some s0 =>
        try rw [h0] at hsel
        try rw [h0]
        dsimp only at hsel ⊢
        cases hc : (updateActivityRec db s0 now).chunkId with
        | none =>
          try rw [hc] at hsel
          exact Option.noConfusion hsel
        | some c =>
          try rw [hc] at hsel
          try rw [hc]
          dsimp only at hsel ⊢
          by_cases hemp :
              (unvotedPrompts (updateSessionActivity db sid now) c sid).isEmpty = true
          · rw [if_pos hemp] at hsel
            exact Option.noConfusion hsel
          · rw [if_neg hemp] at hsel
            injection hsel with hp
            rw [if_neg hemp]
            have hcond : ((updateSessionActivity db sid now).images.filter (fun im =>
                im.promptId = ((unvotedPrompts (updateSessionActivity db sid now) c sid).getD
                  (k % (unvotedPrompts (updateSessionActivity db sid now) c sid).length)
                  { id := 0, text := "" }).id)).length ≠ 5 := by
              rw [hp]
              exact hcard
            rw [if_pos hcond]
  · intro out hok hnd
    cases sidOpt with
    | none => cases hok
    | some sid =>
      simp only [next_prompt] at hok
      cases h0 : findSession db sid with
      | none => rw [h0] at hok; cases hok
      | some s0 =>
        rw [h0] at hok
        dsimp only at hok
        cases hc : (updateActivityRec db s0 now).chunkId with
        | none => rw [hc] at hok; cases hok
        | some c =>
          rw [hc] at hok
          dsimp only at hok
          by_cases hemp :
              (unvotedPrompts (updateSessionActivity db sid now) c sid).isEmpty = true
          · rw [if_pos hemp] at hok
            injection hok with hout
            rw [← hout] at hnd
            cases hnd
          · rw [if_neg hemp] at hok
            split at hok
            · cases hok
            · next hcard =>
              injection hok with hout
              rw [Ne, Decidable.not_not] at hcard
              refine ⟨((unvotedPrompts (updateSessionActivity db sid now) c sid).getD
                  (k % (unvotedPrompts (updateSessionActivity db sid now) c sid).length)
                  { id := 0, text := "" }).id, ?_, ?_, ?_⟩
              · rw [← hout]
              · rw [← hout]
                rfl
              · exact hcard
  · intro hall habs
    cases sidOpt with
    | none => cases habs
    | some sid =>
      simp only [next_prompt] at habs
      cases h0 : findSession db sid with
      | none => rw [h0] at habs; cases habs
      | some s0 =>
        rw [h0] at habs
        dsimp only at habs
        cases hc : (updateActivityRec db s0 now).chunkId with
        | none => rw [hc] at habs; cases habs
        | some c =>
          rw [hc] at habs
          dsimp only at habs
          by_cases hemp :
              (unvotedPrompts (updateSessionActivity db sid now) c sid).isEmpty = true
          · rw [if_pos hemp] at habs
            cases habs
          · rw [if_neg hemp] at habs
            split at habs
            · next hcard =>
              -- the selected prompt is in the catalog, so it has 5 images
              have hne : unvotedPrompts (updateSessionActivity db sid now) c sid ≠ [] := by
                intro h
                rw [h] at hemp
                exact hemp rfl
              have hmem := getD_mod_mem_generic hne { id := 0, text := "" } k
              have hmem2 : (unvotedPrompts (updateSessionActivity db sid now) c sid).getD
                  (k % (unvotedPrompts (updateSessionActivity db sid now) c sid).length)
                  { id := 0, text := "" } ∈ db.prompts := by
                have : _ ∈ unvotedPrompts db c sid := hmem
                exact List.mem_of_mem_filter this
              exact hcard (hall _ hmem2)
            · cases habs

/-- A concrete state for the C7/C9 witnesses: chunk 10 holds prompts 1 and 2,
session 1 has voted on prompt 1, and prompt 2 has its full 5-image set. -/
def dbC7 : DBState :=
  { prompts := [{ id := 1, text := "p" }, { id := 2, text := "q" }],
    images :=
      [{ id := 21, promptId := 2, model := ModelName.gpt5, url := "u1" },
       { id := 22, promptId := 2, model := ModelName.gemini25, url := "u2" },
       { id := 23, promptId := 2, model := ModelName.flux1_dev, url := "u3" },
       { id := 24, promptId := 2, model := ModelName.flux1_krea, url := "u4" },
       { id := 25, promptId := 2, model := ModelName.kolors, url := "u5" }],
    chunks := [10], chunkPrompts := [(10, 1), (10, 2)],
    sessions := [{ id := 1, status := SessionStatus.active, chunkId := some 10,
                   createdAt := 0, lastActivity := 0, completedAt := none }],
    votes := [{ sessionId := 1, promptId := 1, winner := Winner.tie,
                reactionTimeMs := none, updatedAt := none }] }

/-- The payload `next_prompt` returns on `dbC7`: prompt 2 with its 5 images. -/
def outC7 : PromptOut :=
  { done := false, promptId := some 2, promptText := some "q",
    images := some
      [{ id := 21, promptId := 2, model := ModelName.gpt5, url := "u1" },
       { id := 22, promptId := 2, model := ModelName.gemini25, url := "u2" },
       { id := 23, promptId := 2, model := ModelName.flux1_dev, url := "u3" },
       { id := 24, promptId := 2, model := ModelName.flux1_krea, url := "u4" },
       { id := 25, promptId := 2, model := ModelName.kolors, url := "u5" }],
    total := 2, index := 2, chunkId := 10 }

/-- Witness for C7: on `dbC7` the selector returns prompt 2, which is in chunk
10 and unvoted. -/
theorem item_selector_in_chunk_unvoted_witness :
    (next_prompt dbC7 (some 1) 0 0).1 = Except.ok outC7 ∧ outC7.done = false ∧
    (∃ sid s c pid, (some 1 : Option Nat) = some sid ∧
      findSession dbC7 sid = some s ∧ s.chunkId = some c ∧
      outC7.promptId = some pid ∧ (c, pid) ∈ dbC7.chunkPrompts ∧
      pid ∉ votedIds dbC7 sid) :=
  ⟨by rfl, by rfl,
    item_selector_in_chunk_unvoted dbC7 (some 1) 0 0 outC7 (by rfl) (by rfl)⟩

/-- Witness for C9: every prompt of `dbC7` that can be selected has 5 images…
(prompt 2 does), and with a catalog restricted to prompt 2 the cardinality
error is unreachable. -/
def dbC9 : DBState :=
  { prompts := [{ id := 2, text := "q" }],
    images :=
      [{ id := 21, promptId := 2, model := ModelName.gpt5, url := "u1" },
       { id := 22, promptId := 2, model := ModelName.gemini25, url := "u2" },
       { id := 23, promptId := 2, model := ModelName.flux1_dev, url := "u3" },
       { id := 24, promptId := 2, model := ModelName.flux1_krea, url := "u4" },
       { id := 25, promptId := 2, model := ModelName.kolors, url := "u5" }],
    chunks := [10], chunkPrompts := [(10, 2)],
    sessions := [{ id := 1, status := SessionStatus.active, chunkId := some 10,
                   createdAt := 0, lastActivity := 0, completedAt := none }],
    votes := [] }

/-- A malformed catalog for the C9 witness: prompt 3 has only 4 images, and it
is the prompt `next_prompt` will select for session 1. -/
def dbC9b : DBState :=
  { prompts := [{ id := 3, text := "r" }],
    images :=
      [{ id := 31, promptId := 3, model := ModelName.gpt5, url := "u1" },
       { id := 32, promptId := 3, model := ModelName.gemini25, url := "u2" },
       { id := 33, promptId := 3, model := ModelName.flux1_dev, url := "u3" },
       { id := 34, promptId := 3, model := ModelName.flux1_krea, url := "u4" }],
    chunks := [10], chunkPrompts := [(10, 3)],
    sessions := [{ id := 1, status := SessionStatus.active, chunkId := some 10,
                   createdAt := 0, lastActivity := 0, completedAt := none }],
    votes := [] }

/-- Witness for C9: on `dbC9b` the selected prompt has 4 images, so the call
fails with the 500 `imageCardinality` error; on `dbC9` (a complete catalog)
that error is unreachable. -/
theorem image_cardinality_guard_witness :
    (selectedPrompt dbC9b (some 1) 0 0 = some { id := 3, text := "r" } ∧
     (dbC9b.images.filter (fun im =>
        im.promptId = ({ id := 3, text := "r" } : PromptRec).id)).length ≠ 5 ∧
     (next_prompt dbC9b (some 1) 0 0).1 = Except.error ApiErr.imageCardinality) ∧
    ((∀ p ∈ dbC9.prompts,
      (dbC9.images.filter (fun im => im.promptId = p.id)).length = 5) ∧
     (next_prompt dbC9 (some 1) 0 0).1 ≠ Except.error ApiErr.imageCardinality) :=
  ⟨⟨by decide, by decide,
    (image_cardinality_guard dbC9b (some 1) 0 0).1
      { id := 3, text := "r" } (by decide) (by decide)⟩,
   by decide, (image_cardinality_guard dbC9 (some 1) 0 0).2.2.1 (by decide)⟩

/-! ### C4: prompt-mode vote upsert -/

/-- **C4.**  With a valid session, winner value, and existing prompt: a second
vote for the same `(session, prompt)` pair succeeds, is reported `updated`, and
replaces the stored outcome, reaction time and updated-at stamp in place; a
first vote inserts a new row and is reported `created`
(`{"ok": true, "updated": false}`). -/
theorem cast_vote_upsert (db : DBState) (v : VoteCreate) (now : Int) (sid : Nat)
    (s : SessionRec) (w : Winner) (p : PromptRec)
    (hvs : v.sessionId = some sid)
    (hs : findSession db sid = some s)
    (hw : parseWinner v.winnerModel = some w)
    (hp : findPrompt db v.promptId = some p) :
    (∀ v0, findVote db sid v.promptId = some v0 →
      (cast_vote db v now).1 = Except.ok { ok := true, updated := true } ∧
      findVote (cast_vote db v now).2 sid v.promptId = some
        { v0 with winner := w, reactionTimeMs := v.reactionTimeMs,
                  updatedAt := some now }) ∧
    (findVote db sid v.promptId = none →
      (cast_vote db v now).1 = Except.ok { ok := true, updated := false } ∧
      findVote (cast_vote db v now).2 sid v.promptId = some
        { sessionId := sid, promptId := v.promptId, winner := w,
          reactionTimeMs := v.reactionTimeMs, updatedAt := none }) := by
  constructor
  · intro v0 hv0
    have heval : cast_vote db v now
        = (Except.ok { ok := true, updated := true },
           { updateSessionActivity db sid now with
             votes := (updateSessionActivity db sid now).votes.map (fun x =>
               if x.sessionId = sid && x.promptId = v.promptId then
                 { x with winner := w, reactionTimeMs := v.reactionTimeMs,
                          updatedAt := some now }
               else x) }) := by
      simp only [cast_vote, hvs]
      rw [hs]
      dsimp only
      rw [hw]
      dsimp only
      rw [show findPrompt (updateSessionActivity db sid now) v.promptId = some p from hp]
      dsimp only
      rw [show findVote (updateSessionActivity db sid now) sid v.promptId = some v0
        from hv0]
    refine ⟨by rw [heval], ?_⟩
    rw [heval]
    have hv0x : db.votes.find? (fun x => x.sessionId = sid && x.promptId = v.promptId) = some v0 := hv0
    have hcond := List.find?_some hv0x
    have hg : ∀ x : VoteRec,
        (((fun x => if x.sessionId = sid && x.promptId = v.promptId then ({ x with winner := w, reactionTimeMs := v.reactionTimeMs, updatedAt := some now } : VoteRec) else x) x).sessionId = sid && ((fun x => if x.sessionId = sid && x.promptId = v.promptId then ({ x with winner := w, reactionTimeMs := v.reactionTimeMs, updatedAt := some now } : VoteRec) else x) x).promptId = v.promptId)
        = (x.sessionId = sid && x.promptId = v.promptId) := by
      intro x
      dsimp only
      by_cases hx : (x.sessionId = sid && x.promptId = v.promptId) = true
      · rw [if_pos hx]
      · rw [if_neg hx]
    show (db.votes.map (fun x => if x.sessionId = sid && x.promptId = v.promptId then ({ x with winner := w, reactionTimeMs := v.reactionTimeMs, updatedAt := some now } : VoteRec) else x)).find? (fun x => x.sessionId = sid && x.promptId = v.promptId) = _
    rw [find?_map_of_pred _ _ hg db.votes]
    rw [hv0x, Option.map_some']
    rw [if_pos hcond]
  · intro hnone
    have heval : cast_vote db v now
        = (Except.ok { ok := true, updated := false },
           { updateSessionActivity db sid now with
             votes := (updateSessionActivity db sid now).votes ++
               [{ sessionId := sid, promptId := v.promptId, winner := w,
                  reactionTimeMs := v.reactionTimeMs, updatedAt := none }] }) := by
      simp only [cast_vote, hvs]
      rw [hs]
      dsimp only
      rw [hw]
      dsimp only
      rw [show findPrompt (updateSessionActivity db sid now) v.promptId = some p from hp]
      dsimp only
      rw [show findVote (updateSessionActivity db sid now) sid v.promptId = none
        from hnone]
    refine ⟨by rw [heval], ?_⟩
    rw [heval]
    have hnonex : db.votes.find? (fun x => x.sessionId = sid && x.promptId = v.promptId) = none := hnone
    show (db.votes ++ [({ sessionId := sid, promptId := v.promptId, winner := w, reactionTimeMs := v.reactionTimeMs, updatedAt := none } : VoteRec)]).find? (fun x => x.sessionId = sid && x.promptId = v.promptId) = _
    rw [List.find?_append, hnonex]
    rw [List.find?_cons_of_pos _ (by simp)]
    rfl

/-- A concrete state for the C4 witness: session 1 already voted on prompt 1,
not yet on prompt 2. -/
def dbC4 : DBState :=
  { prompts := [{ id := 1, text := "p" }, { id := 2, text := "q" }],
    images := [], chunks := [10], chunkPrompts := [(10, 1), (10, 2)],
    sessions := [{ id := 1, status := SessionStatus.active, chunkId := some 10,
                   createdAt := 0, lastActivity := 0, completedAt := none }],
    votes := [{ sessionId := 1, promptId := 1, winner := Winner.gpt5,
                reactionTimeMs := none, updatedAt := none }] }

/-- Second vote on prompt 1 (revising gpt5 → kolors). -/
def vC4u : VoteCreate :=
  { sessionId := some 1, promptId := 1, winnerModel := "kolors",
    reactionTimeMs := some 300 }

/-- First vote on prompt 2. -/
def vC4c : VoteCreate :=
  { sessionId := some 1, promptId := 2, winnerModel := "tie",
    reactionTimeMs := none }

/-- Witness for C4: on `dbC4`, revoting prompt 1 reports `updated` and stores
the new outcome; a first vote on prompt 2 reports `created`. -/
theorem cast_vote_upsert_witness :
    (vC4u.sessionId = some 1 ∧ findVote dbC4 1 1 =
      some { sessionId := 1, promptId := 1, winner := Winner.gpt5,
             reactionTimeMs := none, updatedAt := none } ∧
     (cast_vote dbC4 vC4u 9).1 = Except.ok { ok := true, updated := true } ∧
     findVote (cast_vote dbC4 vC4u 9).2 1 1 =
      some { sessionId := 1, promptId := 1, winner := Winner.kolors,
             reactionTimeMs := some 300, updatedAt := some 9 }) ∧
    (findVote dbC4 1 2 = none ∧
     (cast_vote dbC4 vC4c 9).1 = Except.ok { ok := true, updated := false } ∧
     findVote (cast_vote dbC4 vC4c 9).2 1 2 =
      some { sessionId := 1, promptId := 2, winner := Winner.tie,
             reactionTimeMs := none, updatedAt := none }) := by
  refine ⟨⟨rfl, by decide, ?_⟩, by decide, ?_⟩
  · exact (cast_vote_upsert dbC4 vC4u 9 1
      { id := 1, status := SessionStatus.active, chunkId := some 10,
        createdAt := 0, lastActivity := 0, completedAt := none }
      Winner.kolors { id := 1, text := "p" } rfl (by decide) rfl (by decide)).1
      { sessionId := 1, promptId := 1, winner := Winner.gpt5,
        reactionTimeMs := none, updatedAt := none } (by decide)
  · exact (cast_vote_upsert dbC4 vC4c 9 1
      { id := 1, status := SessionStatus.active, chunkId := some 10,
        createdAt := 0, lastActivity := 0, completedAt := none }
      Winner.tie { id := 2, text := "q" } rfl (by decide) rfl (by decide)).2
      (by decide)

/-! ### C10: vote recording ignores session status -/

/-- **C10.**  `cast_vote` performs no session-status check: it succeeds exactly
when the session id parses, the session exists, the winner value is a legal
enum member, and the prompt exists — the session's status (active, completed
or abandoned) never appears in the conditions — and whenever the session was
found, its `last_activity` is refreshed to the call time even if a later
validation fails. -/
theorem cast_vote_ignores_status (db : DBState) (v : VoteCreate) (now : Int) :
    ((cast_vote db v now).1.isOk = true ↔
      ¬(v.sessionId = none ∨
        (∃ sid, v.sessionId = some sid ∧ findSession db sid = none) ∨
        parseWinner v.winnerModel = none ∨
        findPrompt db v.promptId = none)) ∧
    (∀ sid s, v.sessionId = some sid → findSession db sid = some s →
      ∀ s2, findSession (cast_vote db v now).2 sid = some s2 →
        s2.lastActivity = now) := by
  constructor
  · cases hvs : v.sessionId with
    | none =>
      simp only [cast_vote, hvs]
      exact iff_of_false Bool.false_ne_true (fun hcon => hcon (Or.inl trivial))
    | some sid =>
      simp only [cast_vote, hvs]
      cases h0 : findSession db sid with
      | none =>
        exact iff_of_false Bool.false_ne_true
          (fun hcon => hcon (Or.inr (Or.inl ⟨sid, rfl, h0⟩)))
      | some s0 =>
        dsimp only
        cases hw : parseWinner v.winnerModel with
        | none =>
          exact iff_of_false Bool.false_ne_true
            (fun hcon => hcon (Or.inr (Or.inr (Or.inl rfl))))
        | some w =>
          dsimp only
          cases hp : findPrompt (updateSessionActivity db sid now) v.promptId with
          | none =>
            refine iff_of_false Bool.false_ne_true ?_
            intro hcon
            exact hcon (Or.inr (Or.inr (Or.inr hp)))
          | some p =>
            dsimp only
            cases hv : findVote (updateSessionActivity db sid now) sid v.promptId with
            | some v0 =>
              refine iff_of_true rfl ?_
              intro hcon
              rcases hcon with h | ⟨sid2, heq, hnone⟩ | h | h
              · cases h
              · injection heq with h2
                rw [← h2] at hnone
                rw [h0] at hnone
                cases hnone
              · cases h
              · have hpx : findPrompt db v.promptId = some p := hp
                rw [hpx] at h
                cases h
            | none =>
              refine iff_of_true rfl ?_
              intro hcon
              rcases hcon with h | ⟨sid2, heq, hnone⟩ | h | h
              · cases h
              · injection heq with h2
                rw [← h2] at hnone
                rw [h0] at hnone
                cases hnone
              · cases h
              · have hpx : findPrompt db v.promptId = some p := hp
                rw [hpx] at h
                cases h
  · intro sid s hvs hs s2 h2
    have hid : s.id = sid := findSession_id hs
    have hfind1 : findSession (updateSessionActivity db sid now) sid
        = some (updateActivityRec db s now) := by
      rw [findSession_updateSessionActivity, hs, Option.map_some', if_pos hid]
    have h3 : findSession (cast_vote db v now).2 sid
        = some (updateActivityRec db s now) := by
      simp only [cast_vote, hvs]
      rw [hs]
      dsimp only
      cases parseWinner v.winnerModel with
      | none => exact hfind1
      | some w =>
        dsimp only
        cases findPrompt (updateSessionActivity db sid now) v.promptId with
        | none => exact hfind1
        | some p =>
          dsimp only
          cases findVote (updateSessionActivity db sid now) sid v.promptId with
          | some v0 => exact hfind1
          | none => exact hfind1
    rw [h3] at h2
    injection h2 with h
    rw [← h, updateActivityRec_lastActivity]

/-- A concrete state for the C10 witness: an *abandoned* session. -/
def dbC10 : DBState :=
  { prompts := [{ id := 1, text := "p" }], images := [], chunks := [10],
    chunkPrompts := [(10, 1)],
    sessions := [{ id := 1, status := SessionStatus.abandoned, chunkId := some 10,
                   createdAt := 0, lastActivity := 0, completedAt := none }],
    votes := [] }

/-- Witness for C10: voting on an abandoned session succeeds and refreshes its
`last_activity`. -/
theorem cast_vote_ignores_status_witness :
    ((cast_vote dbC10
        { sessionId := some 1, promptId := 1, winnerModel := "gpt5",
          reactionTimeMs := none } 44).1.isOk = true ↔
      ¬((some 1 : Option Nat) = none ∨
        (∃ sid, (some 1 : Option Nat) = some sid ∧ findSession dbC10 sid = none) ∨
        parseWinner "gpt5" = none ∨
        findPrompt dbC10 1 = none)) ∧
    ((some 1 : Option Nat) = some 1 ∧
     findSession dbC10 1 = some
      { id := 1, status := SessionStatus.abandoned, chunkId := some 10,
        createdAt := 0, lastActivity := 0, completedAt := none } ∧
     ∀ s2, findSession (cast_vote dbC10
        { sessionId := some 1, promptId := 1, winnerModel := "gpt5",
          reactionTimeMs := none } 44).2 1 = some s2 →
       s2.lastActivity = 44) :=
  ⟨(cast_vote_ignores_status dbC10
      { sessionId := some 1, promptId := 1, winnerModel := "gpt5",
        reactionTimeMs := none } 44).1,
   rfl, by decide,
   fun s2 h2 => (cast_vote_ignores_status dbC10
      { sessionId := some 1, promptId := 1, winnerModel := "gpt5",
        reactionTimeMs := none } 44).2 1
      { id := 1, status := SessionStatus.abandoned, chunkId := some 10,
        createdAt := 0, lastActivity := 0, completedAt := none }
      rfl (by decide) s2 h2⟩

/-! ### C6: distinct votes versus chunk size -/

/-- **C6 (amended).**  From any well-formed state and after any operation
sequence, a session's distinct voted items never exceed the *catalog* size.
The chunk-size bound of the original claim is false: `cast_vote` never checks
that the prompt belongs to the session's chunk (see the counterexample). -/
theorem distinct_votes_bounded_by_catalog (db : DBState) (hwf : WFdb db)
    (ops : List Op) (sid : Nat) :
    distinctVotedCount (runOps db ops) sid ≤ (runOps db ops).prompts.length := by
  have hwf2 : WFdb (runOps db ops) := wf_runOps db ops hwf
  have hsub : ((votedIds (runOps db ops) sid).dedup) ⊆
      (runOps db ops).prompts.map (fun p => p.id) := by
    intro x hx
    rw [List.mem_dedup] at hx
    rcases List.mem_map.mp hx with ⟨v0, hv0, rfl⟩
    exact hwf2.2.2.2.2.1 v0 (List.mem_of_mem_filter hv0)
  have hle := (List.subperm_of_subset (List.nodup_dedup _) hsub).length_le
  rw [List.length_map] at hle
  exact hle

/-- A concrete state for the C6 counterexample and witness: the catalog has two
prompts but session 1's chunk contains only prompt 1. -/
def dbC6 : DBState :=
  { prompts := [{ id := 1, text := "p" }, { id := 2, text := "q" }],
    images := [], chunks := [10], chunkPrompts := [(10, 1)],
    sessions := [{ id := 1, status := SessionStatus.active, chunkId := some 10,
                   createdAt := 0, lastActivity := 0, completedAt := none }],
    votes := [] }

/-- Vote on the in-chunk prompt 1, then on the out-of-chunk prompt 2. -/
def opsC6 : List Op :=
  [Op.vote { sessionId := some 1, promptId := 1, winnerModel := "gpt5",
             reactionTimeMs := none } 0,
   Op.vote { sessionId := some 1, promptId := 2, winnerModel := "tie",
             reactionTimeMs := none } 0]

/-- **C6 counterexample.**  After two accepted votes, session 1 has 2 distinct
voted items while its chunk holds only 1 — the claimed chunk-size bound fails
because `cast_vote` accepts votes on prompts outside the session's chunk. -/
theorem distinct_votes_exceed_chunk_counterexample :
    WFdb dbC6 ∧
    (findSession (runOps dbC6 opsC6) 1).map (fun s => s.chunkId)
      = some (some 10) ∧
    chunkPromptCount (runOps dbC6 opsC6) (some 10) = 1 ∧
    distinctVotedCount (runOps dbC6 opsC6) 1 = 2 := by
  refine ⟨by decide, ?_, ?_, ?_⟩ <;> rfl

/-- Witness for the amended C6 on the same scenario: 2 distinct voted items,
catalog size 2. -/
theorem distinct_votes_bounded_by_catalog_witness :
    WFdb dbC6 ∧
    distinctVotedCount (runOps dbC6 opsC6) 1 ≤ (runOps dbC6 opsC6).prompts.length :=
  ⟨by decide, distinct_votes_bounded_by_catalog dbC6 (by decide) opsC6 1⟩
